import Mathlib

/-!
Verification development for the Brightree WebForms integration client
(brightree_integration.py and models/models.py).

The Python code is shallowly embedded: pure helpers become Lean functions,
network effects are modelled by explicit response/oracle parameters together
with an action trace, Python exceptions become Except/Option results, and
datetime.now() becomes an explicit date parameter.  String primitives used by
the code (percent-decoding, percent-encoding, json.dumps, substring tests)
are modelled byte-faithfully for the ASCII domain the integration operates
on.
-/

namespace Brightree

/-! ## Python string primitives -/

/-- Python str() applied to an Optional[str] value: None renders as the
four-character string "None" (this is what an f-string interpolation of a
missing token produces). -/
def pyStr : Option String → String
  | none => "None"
  | some s => s

/-- Containment of one character list in another, scanning left to right. -/
def listContains (needle : List Char) : List Char → Bool
  | [] => needle.isPrefixOf []
  | c :: rest => needle.isPrefixOf (c :: rest) || listContains needle rest

/-- Python substring test (the binary operator testing containment of one str
in another). -/
def pyIn (needle hay : String) : Bool :=
  listContains needle.data hay.data

/-- Python str.lower restricted to the ASCII range handled by this
integration (Char.toLower lowers exactly the ASCII uppercase letters). -/
def pyLower (s : String) : String :=
  String.mk (s.data.map Char.toLower)

/-- Splitter behind the Python str.split method with a non-empty
separator: each non-overlapping occurrence of the separator, scanned left
to right, ends a (possibly empty) piece.  The fuel argument (instantiated
with one more than the input length, an upper bound on the number of scan
steps) makes the recursion structural so that the definition computes by
reduction. -/
def splitListFuel (sep : List Char) : Nat → List Char → List Char → List (List Char)
  | 0, acc, l => [acc.reverse ++ l]
  | _ + 1, acc, [] => [acc.reverse]
  | fuel + 1, acc, c :: rest =>
    if sep.isPrefixOf (c :: rest) then
      acc.reverse :: splitListFuel sep fuel [] (List.drop sep.length (c :: rest))
    else splitListFuel sep fuel (c :: acc) rest

/-- Python str.split with a separator argument (the separator is non-empty
at every call site of this development). -/
def pySplitOn (s sep : String) : List String :=
  if sep = "" then [s]
  else (splitListFuel sep.data (s.data.length + 1) [] s.data).map String.mk

/-- Replacement scan behind the Python str.replace method with a non-empty
pattern: each non-overlapping occurrence of the pattern, scanned left to
right, is replaced.  Fuel as in splitListFuel. -/
def replaceListFuel (pat repl : List Char) : Nat → List Char → List Char
  | 0, l => l
  | _ + 1, [] => []
  | fuel + 1, c :: rest =>
    if pat.isPrefixOf (c :: rest) then
      repl ++ replaceListFuel pat repl fuel (List.drop pat.length (c :: rest))
    else c :: replaceListFuel pat repl fuel rest

/-- Python str.replace (the pattern is non-empty at every call site of this
development). -/
def pyReplace (s pat repl : String) : String :=
  if pat = "" then s
  else String.mk (replaceListFuel pat.data repl.data (s.data.length + 1) s.data)

/-- Value of a hexadecimal digit character, if it is one. -/
def hexVal : Char → Option Nat
  | c =>
    if '0' ≤ c ∧ c ≤ '9' then some (c.toNat - '0'.toNat)
    else if 'a' ≤ c ∧ c ≤ 'f' then some (c.toNat - 'a'.toNat + 10)
    else if 'A' ≤ c ∧ c ≤ 'F' then some (c.toNat - 'A'.toNat + 10)
    else none

/-- Uppercase hexadecimal digit, used by urllib.parse.quote. -/
def hexDigitUpper (n : Nat) : Char :=
  if n < 10 then Char.ofNat ('0'.toNat + n) else Char.ofNat ('A'.toNat + n - 10)

/-- Lowercase hexadecimal digit, used by json.dumps unicode escapes. -/
def hexDigitLower (n : Nat) : Char :=
  if n < 10 then Char.ofNat ('0'.toNat + n) else Char.ofNat ('a'.toNat + n - 10)

/-- Four lowercase hex digits (for a json \\uXXXX escape). -/
def hex4Lower (n : Nat) : List Char :=
  [hexDigitLower (n / 4096 % 16), hexDigitLower (n / 256 % 16),
   hexDigitLower (n / 16 % 16), hexDigitLower (n % 16)]

/-- UTF-8 encoding of one character, as its byte values. -/
def utf8Bytes (c : Char) : List Nat :=
  let n := c.toNat
  if n < 0x80 then [n]
  else if n < 0x800 then [0xC0 + n / 64, 0x80 + n % 64]
  else if n < 0x10000 then [0xE0 + n / 4096, 0x80 + n / 64 % 64, 0x80 + n % 64]
  else [0xF0 + n / 262144, 0x80 + n / 4096 % 64, 0x80 + n / 64 % 64, 0x80 + n % 64]

/-- Bytes urllib.parse.quote never encodes: ASCII letters, digits and the
characters underscore, dot, dash, tilde. -/
def quoteAlwaysSafe (b : Nat) : Bool :=
  (65 ≤ b ∧ b ≤ 90) ∨ (97 ≤ b ∧ b ≤ 122) ∨ (48 ≤ b ∧ b ≤ 57) ∨
    b = 95 ∨ b = 46 ∨ b = 45 ∨ b = 126

/-- urllib.parse.quote_plus applied to one UTF-8 byte with safe set empty:
space becomes a plus sign, always-safe bytes pass through, every other byte
becomes a percent escape with uppercase hex digits. -/
def quotePlusByte (b : Nat) : List Char :=
  if b = 32 then ['+']
  else if quoteAlwaysSafe b then [Char.ofNat b]
  else ['%', hexDigitUpper (b / 16), hexDigitUpper (b % 16)]

/-- urllib.parse.quote_plus with the empty safe string, as used by
urllib.parse.urlencode. -/
def quotePlus (s : String) : String :=
  String.mk ((s.data.flatMap utf8Bytes).flatMap quotePlusByte)

/-- Whether a byte is a UTF-8 continuation byte. -/
def isCont (b : Nat) : Bool := 0x80 ≤ b ∧ b ≤ 0xBF

/-- The Unicode replacement character produced for malformed UTF-8 input. -/
def replacementChar : Char := Char.ofNat 0xFFFD

/-- UTF-8 decoding with replacement of malformed sequences, following the
maximal-subpart substitution CPython applies for the errors equal to replace
policy: a well-formed sequence decodes to its code point, a truncated or
invalid sequence consumes its longest valid prefix and yields one
replacement character.  The fuel argument (instantiated with the input
length, an upper bound on the number of decoding steps) makes the
recursion structural so that the definition computes by reduction. -/
def utf8DecodeReplaceFuel : Nat → List Nat → List Char
  | 0, _ => []
  | _ + 1, [] => []
  | fuel + 1, b :: rest =>
    if b < 0x80 then Char.ofNat b :: utf8DecodeReplaceFuel fuel rest
    else if 0xC2 ≤ b ∧ b ≤ 0xDF then
      match rest with
      | b2 :: rest2 =>
        if isCont b2 then
          Char.ofNat ((b - 0xC0) * 64 + (b2 - 0x80)) :: utf8DecodeReplaceFuel fuel rest2
        else replacementChar :: utf8DecodeReplaceFuel fuel (b2 :: rest2)
      | [] => [replacementChar]
    else if 0xE0 ≤ b ∧ b ≤ 0xEF then
      let lo2 := if b = 0xE0 then 0xA0 else 0x80
      let hi2 := if b = 0xED then 0x9F else 0xBF
      match rest with
      | b2 :: rest2 =>
        if lo2 ≤ b2 ∧ b2 ≤ hi2 then
          match rest2 with
          | b3 :: rest3 =>
            if isCont b3 then
              Char.ofNat ((b - 0xE0) * 4096 + (b2 - 0x80) * 64 + (b3 - 0x80)) ::
                utf8DecodeReplaceFuel fuel rest3
            else replacementChar :: utf8DecodeReplaceFuel fuel (b3 :: rest3)
          | [] => [replacementChar]
        else replacementChar :: utf8DecodeReplaceFuel fuel (b2 :: rest2)
      | [] => [replacementChar]
    else if 0xF0 ≤ b ∧ b ≤ 0xF4 then
      let lo2 := if b = 0xF0 then 0x90 else 0x80
      let hi2 := if b = 0xF4 then 0x8F else 0xBF
      match rest with
      | b2 :: rest2 =>
        if lo2 ≤ b2 ∧ b2 ≤ hi2 then
          match rest2 with
          | b3 :: rest3 =>
            if isCont b3 then
              match rest3 with
              | b4 :: rest4 =>
                if isCont b4 then
                  Char.ofNat ((b - 0xF0) * 262144 + (b2 - 0x80) * 4096 +
                      (b3 - 0x80) * 64 + (b4 - 0x80)) :: utf8DecodeReplaceFuel fuel rest4
                else replacementChar :: utf8DecodeReplaceFuel fuel (b4 :: rest4)
              | [] => [replacementChar]
            else replacementChar :: utf8DecodeReplaceFuel fuel (b3 :: rest3)
          | [] => [replacementChar]
        else replacementChar :: utf8DecodeReplaceFuel fuel (b2 :: rest2)
      | [] => [replacementChar]
    else replacementChar :: utf8DecodeReplaceFuel fuel rest

/-- UTF-8 decoding with replacement, at adequate fuel. -/
def utf8DecodeReplace (bytes : List Nat) : List Char :=
  utf8DecodeReplaceFuel bytes.length bytes

/-- Scanner for urllib.parse.unquote: a percent sign followed by two hex
digits yields a byte, anything else stays a literal character. -/
def percentScan : List Char → List (Sum Nat Char)
  | [] => []
  | '%' :: c1 :: c2 :: rest =>
    match hexVal c1, hexVal c2 with
    | some h1, some h2 => Sum.inl (16 * h1 + h2) :: percentScan rest
    | _, _ => Sum.inr '%' :: percentScan (c1 :: c2 :: rest)
  | c :: rest => Sum.inr c :: percentScan rest

/-- Assembles the scanner output, UTF-8 decoding each maximal run of decoded
bytes (the grouping urllib.parse.unquote performs before decoding with the
replace error policy). -/
def percentAssemble : List (Sum Nat Char) → List Nat → String
  | [], acc => String.mk (utf8DecodeReplace acc)
  | Sum.inl b :: rest, acc => percentAssemble rest (acc ++ [b])
  | Sum.inr c :: rest, acc =>
    String.mk (utf8DecodeReplace acc) ++ String.singleton c ++ percentAssemble rest []

/-- urllib.parse.unquote with default utf-8 encoding and replace error
policy. -/
def unquote (s : String) : String :=
  percentAssemble (percentScan s.data) []

/-! ## json.dumps model

The structured control-state blobs in the form maps are Python dicts, lists,
strings, booleans, ints and None; json.dumps serializes them with default
separators (a comma-space between items and a colon-space after keys),
preserving dict insertion order, with ensure_ascii escaping. -/

/-- JSON-serializable Python values as they occur in the form field maps. -/
inductive JVal where
  | jstr : String → JVal
  | jbool : Bool → JVal
  | jnull : JVal
  | jnum : Int → JVal
  | jarr : List JVal → JVal
  | jobj : List (String × JVal) → JVal

/-- Escape of one character inside a json.dumps string literal with the
default ensure_ascii policy: quote, backslash and the C0 shortcuts get a
backslash escape, other characters outside the printable ASCII range get a
unicode escape (with a surrogate pair above the basic plane), printable
ASCII passes through. -/
def jsonEscapeChar (c : Char) : List Char :=
  if c = '"' then ['\\', '"']
  else if c = '\\' then ['\\', '\\']
  else if c = '\n' then ['\\', 'n']
  else if c = '\r' then ['\\', 'r']
  else if c = '\t' then ['\\', 't']
  else if c = Char.ofNat 8 then ['\\', 'b']
  else if c = Char.ofNat 12 then ['\\', 'f']
  else if c.toNat < 0x20 then '\\' :: 'u' :: hex4Lower c.toNat
  else if c.toNat < 0x7F then [c]
  else if c.toNat < 0x10000 then '\\' :: 'u' :: hex4Lower c.toNat
  else
    ('\\' :: 'u' :: hex4Lower (0xD800 + (c.toNat - 0x10000) / 0x400)) ++
      ('\\' :: 'u' :: hex4Lower (0xDC00 + (c.toNat - 0x10000) % 0x400))

/-- A json string literal with surrounding quotes. -/
def jsonQuote (s : String) : String :=
  "\"" ++ String.mk (s.data.flatMap jsonEscapeChar) ++ "\""

mutual

/-- json.dumps with default arguments, on the value shapes present in the
form maps. -/
def jsonDumps : JVal → String
  | .jstr s => jsonQuote s
  | .jbool true => "true"
  | .jbool false => "false"
  | .jnull => "null"
  | .jnum n => toString n
  | .jarr xs => "[" ++ jsonDumpsArr xs ++ "]"
  | .jobj kvs => "\x7b" ++ jsonDumpsObj kvs ++ "\x7d"

/-- Comma-space separated list elements. -/
def jsonDumpsArr : List JVal → String
  | [] => ""
  | [x] => jsonDumps x
  | x :: y :: xs => jsonDumps x ++ ", " ++ jsonDumpsArr (y :: xs)

/-- Comma-space separated object entries with colon-space after each key. -/
def jsonDumpsObj : List (String × JVal) → String
  | [] => ""
  | [kv] => jsonQuote kv.1 ++ ": " ++ jsonDumps kv.2
  | kv :: kv2 :: xs => jsonQuote kv.1 ++ ": " ++ jsonDumps kv.2 ++ ", " ++ jsonDumpsObj (kv2 :: xs)

end

/-! ## _create_form_data -/

/-- A value of the Python form-data dict: either already a str, or a
structured value that _create_form_data passes through json.dumps. -/
inductive FormVal where
  | fstr : String → FormVal
  | fjson : JVal → FormVal

/-- The value-normalization loop of _create_form_data: values that are not
already strings are replaced by their json.dumps serialization. -/
def formValToString : FormVal → String
  | .fstr s => s
  | .fjson v => jsonDumps v

/-- One key-value pair of the encoded body, as urllib.parse.urlencode
renders it: quote_plus of the key, an equals sign, quote_plus of the
normalized value. -/
def encodePair (kv : String × FormVal) : String :=
  quotePlus kv.1 ++ "=" ++ quotePlus (formValToString kv.2)

/-- _create_form_data: normalizes all values to strings, then URL-encodes
the dict into a single application/x-www-form-urlencoded body via
urllib.parse.urlencode (quote_plus on each key and value, pairs joined with
ampersands, in insertion order). -/
def createFormData (formData : List (String × FormVal)) : String :=
  String.intercalate "&" (formData.map encodePair)

/-- Helper for the calendar state entries: a Python list of ints embedded in
a JSON blob. -/
def jintList (xs : List Int) : JVal :=
  .jarr (xs.map .jnum)

/-! ## models.py: phone validator -/

/-- The vendor's literal phone placeholder mask. -/
def phoneNumberFormat : String := "(___) ___-____"

/-- BasePatient.format_phone and SalesOrder.format_phone (the two validator
bodies are textually identical).  The input is Optional[str]; a falsy input
(None or the empty string) or the placeholder mask itself yields the mask.
Otherwise all non-digit characters are stripped; exactly 10 digits are
formatted as (XXX) XXX-XXXX, 11 digits with a leading 1 drop the 1 first,
and anything else raises a ValueError, modelled as the error case. -/
def formatPhone (v : Option String) : Except String String :=
  if v = none ∨ v = some "" ∨ v = some phoneNumberFormat then
    .ok phoneNumberFormat
  else
    let s := (v.getD "")
    let numbersOnly : List Char := s.data.filter Char.isDigit
    if numbersOnly.length = 10 then
      .ok ("(" ++ String.mk (numbersOnly.take 3) ++ ") " ++
        String.mk ((numbersOnly.drop 3).take 3) ++ "-" ++ String.mk (numbersOnly.drop 6))
    else if numbersOnly.length = 11 ∧ numbersOnly.take 1 = ['1'] then
      .ok ("(" ++ String.mk ((numbersOnly.drop 1).take 3) ++ ") " ++
        String.mk ((numbersOnly.drop 4).take 3) ++ "-" ++ String.mk (numbersOnly.drop 7))
    else
      .error "Phone number must be a valid US number (10 digits)"

/-! ## Date and time helpers -/

/-- Greedy digit scanner used to model the regexes datetime.strptime builds:
reads at most maxDigits leading digit characters, returning the accumulated
value, the number of digits read and the rest of the input. -/
def takeDigitsAux : Nat → List Char → Nat → Nat → Nat × Nat × List Char
  | 0, cs, acc, cnt => (acc, cnt, cs)
  | _ + 1, [], acc, cnt => (acc, cnt, [])
  | m + 1, c :: cs, acc, cnt =>
    if c.isDigit then takeDigitsAux m cs (acc * 10 + (c.toNat - '0'.toNat)) (cnt + 1)
    else (acc, cnt, c :: cs)

/-- Reads up to maxDigits leading digits. -/
def takeDigits (maxDigits : Nat) (cs : List Char) : Nat × Nat × List Char :=
  takeDigitsAux maxDigits cs 0 0

/-- Gregorian leap-year rule, as the datetime module applies it. -/
def isLeapYear (y : Nat) : Bool :=
  (y % 4 = 0 ∧ y % 100 ≠ 0) ∨ y % 400 = 0

/-- Number of days in a month of a given year. -/
def daysInMonth (y m : Nat) : Nat :=
  if m = 2 then (if isLeapYear y then 29 else 28)
  else if m = 4 ∨ m = 6 ∨ m = 9 ∨ m = 11 then 30
  else 31

/-- datetime.strptime with format %Y-%m-%d: one to four year digits, a
dash, one to two month digits, a dash, one to two day digits, end of input,
with the calendar validity checks datetime performs (year at least 1,
month 1-12, day within the month).  A failure models the ValueError
strptime raises.  (The check that the next character is the literal dash is
phrased with headD over a character no input contains at that point.) -/
def strptimeYmd (s : String) : Option (Nat × Nat × Nat) :=
  let p1 := takeDigits 4 s.data
  if p1.2.1 = 0 then none
  else if p1.2.2.headD ' ' ≠ '-' then none
  else
    let p2 := takeDigits 2 p1.2.2.tail
    if p2.2.1 = 0 then none
    else if p2.2.2.headD ' ' ≠ '-' then none
    else
      let p3 := takeDigits 2 p2.2.2.tail
      if p3.2.1 = 0 then none
      else if p3.2.2 ≠ [] then none
      else if 1 ≤ p1.1 ∧ p1.1 ≤ 9999 ∧ 1 ≤ p2.1 ∧ p2.1 ≤ 12 ∧
          1 ≤ p3.1 ∧ p3.1 ≤ daysInMonth p1.1 p2.1 then
        some (p1.1, p2.1, p3.1)
      else none

/-- _format_date_mdy: empty input yields the empty string; otherwise the
input is parsed with strptime %Y-%m-%d and rendered with strftime
%-m/%-d/%Y (month and day as plain decimal numbers with no leading zeros),
with a ValueError caught and turned into the empty string.  The strftime
methods of datetime raise the same ValueError for years below 1000, so
those also produce the empty string. -/
def formatDateMdy (s : String) : String :=
  if s = "" then ""
  else
    match strptimeYmd s with
    | some ymd =>
      if ymd.1 < 1000 then ""
      else toString ymd.2.1 ++ "/" ++ toString ymd.2.2 ++ "/" ++ toString ymd.1
    | none => ""

/-- Two-digit zero-padded decimal rendering (for strftime %m, %d, %H, %M). -/
def pad2 (n : Nat) : String :=
  String.mk [Char.ofNat ('0'.toNat + n / 10 % 10), Char.ofNat ('0'.toNat + n % 10)]

/-- Four-digit zero-padded decimal rendering (for strftime %Y). -/
def pad4 (n : Nat) : String :=
  String.mk [Char.ofNat ('0'.toNat + n / 1000 % 10), Char.ofNat ('0'.toNat + n / 100 % 10),
    Char.ofNat ('0'.toNat + n / 10 % 10), Char.ofNat ('0'.toNat + n % 10)]

/-- Parser for the %I:%M %p part of _combine_datetime's strptime call: one
to two hour digits in 1-12, a colon, one to two minute digits in 0-59, a
space, then AM or PM matched case-insensitively. -/
def strptime12Hour (cs : List Char) : Option (Nat × Nat × Bool) :=
  let p1 := takeDigits 2 cs
  if p1.2.1 = 0 ∨ ¬(1 ≤ p1.1 ∧ p1.1 ≤ 12) then none
  else
    match p1.2.2 with
    | ':' :: r2 =>
      let p2 := takeDigits 2 r2
      if p2.2.1 = 0 ∨ ¬(p2.1 ≤ 59) then none
      else
        match p2.2.2 with
        | ' ' :: c1 :: c2 :: [] =>
          if (c1.toLower = 'a' ∨ c1.toLower = 'p') ∧ c2.toLower = 'm' then
            some (p1.1, p2.1, c1.toLower = 'p')
          else none
        | _ => none
    | _ => none

/-- _combine_datetime: an empty date yields the empty string; otherwise the
string made of the date, a space and the time is parsed with
%Y-%m-%d %I:%M %p and re-rendered with strftime %Y-%m-%d-%H-%M-00 (24-hour
clock, zero padded).  A parse failure, or a year below 1000 (which strftime
rejects), models the uncaught ValueError. -/
def combineDatetime (dateStr timeStr : String) : Option String :=
  if dateStr = "" then some ""
  else
    match strptimeYmd dateStr with
    | none => none
    | some ymd =>
      if ymd.1 < 1000 then none else
      match strptime12Hour timeStr.data with
      | none => none
      | some hmp =>
        let hour24 := if hmp.2.2 then hmp.1 % 12 + 12 else hmp.1 % 12
        some (pad4 ymd.1 ++ "-" ++ pad2 ymd.2.1 ++ "-" ++ pad2 ymd.2.2 ++ "-" ++
          pad2 hour24 ++ "-" ++ pad2 hmp.2.1 ++ "-00")

/-- The year, month and day of the wall clock at the moment of a call,
standing in for datetime.now(). -/
structure DateArray where
  year : Int
  month : Int
  day : Int

/-- _get_date_array with no argument: the current date as a year, month,
day list. -/
def getDateArrayNow (now : DateArray) : List Int :=
  [now.year, now.month, now.day]

/-! ## Page state extractor

BeautifulSoup is abstracted to the one thing these helpers consult: the
sequence of input elements of the parsed document, in document order, each
with its optional id, name and value attributes. -/

/-- One HTML input element as seen by the two extractor helpers. -/
structure InputElement where
  id : Option String
  name : Option String
  value : Option String

/-- A parsed HTML document, reduced to its input elements in document
order. -/
structure Soup where
  inputs : List InputElement

/-- _extract_input_value_by_id: the value attribute of the first input
element whose id attribute equals the given id, None when no such element
exists or the element has no value attribute. -/
def extractInputValueById (soup : Soup) (inputId : String) : Option String :=
  match soup.inputs.find? (fun e => e.id == some inputId) with
  | some e => e.value
  | none => none

/-- _extract_input_value_by_name: as by id, but matching the name
attribute. -/
def extractInputValueByName (soup : Soup) (inputName : String) : Option String :=
  match soup.inputs.find? (fun e => e.name == some inputName) with
  | some e => e.value
  | none => none

/-! ## Response interpreter (_handle_response) -/

/-- A completed HTTP response as _handle_response and the redirect walk
consult it: status code, reason phrase, the textual rendering of the header
multidict used in the generic error message, the Location header, and the
decoded text body. -/
structure HttpResponse where
  status : Nat
  reason : String
  headersRepr : String
  location : Option String
  body : String

/-- aiohttp's ClientResponse.ok: true when the status is below 400. -/
def responseOk (r : HttpResponse) : Bool :=
  r.status < 400

/-- Result of routing a response through _handle_response: the decoded body
on success, or one of the two raised error kinds with the constructor
arguments used at the raise site (an IntegrationAuthError carries a message
and an optional status code, an IntegrationAPIError carries the integration
name, a message and an optional status code). -/
inductive HandleResult where
  | success (body : String)
  | authErr (message : String) (statusCode : Option Nat)
  | apiErr (integrationName message : String) (statusCode : Option Nat)
deriving DecidableEq

/-- Whether the result is a raised IntegrationAuthError. -/
def HandleResult.isAuthError : HandleResult → Bool
  | .authErr _ _ => true
  | _ => false

/-- _handle_response: a status of 200 or an ok status yields the body,
unless the body contains a document type declaration together with an
access-denied or login marker, which raises an IntegrationAuthError with
message Unauthorized and status code 401; otherwise a 4xx status raises an
IntegrationAuthError whose message carries the status code and reason
phrase, and any other failure status raises an IntegrationAPIError carrying
the status code and the headers. -/
def handleResponse (r : HttpResponse) : HandleResult :=
  if r.status = 200 ∨ responseOk r then
    if pyIn "<!DOCTYPE html>" r.body then
      if pyIn "Access is denied" r.body ∨ pyIn "Brightree Login" r.body then
        .authErr "Unauthorized" (some 401)
      else .success r.body
    else .success r.body
  else if 400 ≤ r.status ∧ r.status < 500 then
    .authErr ("Brightree: " ++ toString r.status ++ " - " ++ r.reason) none
  else
    .apiErr "brightree"
      ("Brightree: " ++ toString r.status ++ " - " ++ r.headersRepr) (some r.status)

/-! ## Manual redirect walk (_handle_manual_redirect)

The transport is modelled by the scripted sequence of responses the server
returns to the successive requests the walk issues; the walk's result is
paired with the number of requests it issued. -/

/-- Outcome of the manual redirect walk. -/
inductive WalkResult where
  | handled (res : HandleResult)
  | walkApiError (integrationName message : String)
  | outOfResponses
deriving DecidableEq

/-- Scheme and netloc of a URL as urllib.parse.urlparse extracts them for
the relative-Location case: the scheme is the part before the first
colon-slash-slash, the netloc runs to the next slash. -/
def urlparseSchemeNetloc (url : String) : String × String :=
  match pySplitOn url "://" with
  | pre :: rest :: _ =>
    (pre, String.mk (rest.data.takeWhile (fun c => c ≠ '/')))
  | _ => ("", "")

/-- Whether a status is one the walk treats as a redirect. -/
def isRedirectStatus (status : Nat) : Bool :=
  status = 301 ∨ status = 302 ∨ status = 303 ∨ status = 307 ∨ status = 308

/-- Resolution of a Location header value against the current request URL:
a server-relative value (leading slash) is prefixed with the current scheme
and netloc, anything else is used as is. -/
def resolveLocation (currentUrl nextUrl0 : String) : String :=
  if nextUrl0.startsWith "/" then
    (urlparseSchemeNetloc currentUrl).1 ++ "://" ++ (urlparseSchemeNetloc currentUrl).2 ++ nextUrl0
  else nextUrl0

/-- Accounts one issued request in a walk result. -/
def countRequest (p : WalkResult × Nat) : WalkResult × Nat :=
  (p.1, p.2 + 1)

/-- Loop body of _handle_manual_redirect: while the redirect count is below
the cap, issue a request (taking the next scripted response); on a redirect
status increment the count, fail with an IntegrationAPIError when the
Location header is falsy (absent or empty), resolve a relative Location
against the current scheme and host, downgrade the method to GET after a
303, and continue; on any other status return the response through
_handle_response.  Falling out of the loop raises an IntegrationAPIError
naming the cap. -/
def manualRedirectAux (maxRedirects : Nat) :
    Nat → String → String → List HttpResponse → WalkResult × Nat
  | redirectCount, _, _, [] =>
    if redirectCount < maxRedirects then (.outOfResponses, 0)
    else
      (.walkApiError "brightree"
        ("Too many redirects (max: " ++ toString maxRedirects ++ ")"), 0)
  | redirectCount, currentMethod, currentUrl, r :: rest =>
    if redirectCount < maxRedirects then
      if isRedirectStatus r.status then
        if r.location = none ∨ r.location = some "" then
          (.walkApiError "brightree"
            ("Received redirect status " ++ toString r.status ++ " but no Location header"), 1)
        else
          countRequest (manualRedirectAux maxRedirects (redirectCount + 1)
            (if r.status = 303 then "GET" else currentMethod)
            (resolveLocation currentUrl (r.location.getD "")) rest)
      else (.handled (handleResponse r), 1)
    else
      (.walkApiError "brightree"
        ("Too many redirects (max: " ++ toString maxRedirects ++ ")"), 0)

/-- _handle_manual_redirect, starting with a zero redirect count at the
original method and URL. -/
def handleManualRedirect (maxRedirects : Nat) (method url : String)
    (responses : List HttpResponse) : WalkResult × Nat :=
  manualRedirectAux maxRedirects 0 method url responses

/-! ## Postback response parsing -/

/-- The base origin self.url set in the constructor. -/
def brightreeUrl : String := "https://brightree.net"

/-- A Python exception escaping a postback-parsing block: an IndexError
from indexing past the end of a split, or a raised IntegrationAPIError
with its constructor arguments. -/
inductive PyError where
  | indexError
  | integrationAPIError (integrationName message : String) (statusCode : Nat)
deriving DecidableEq

/-- Postback handling of create_update_patient (after the POST): the raw
response is split on double pipes, the segment at index 2 has its remaining
pipes stripped and is then percent-decoded; a decoded segment containing
the lowercase text exception raises an IntegrationAPIError reporting the
segment, otherwise the decoded segment is the redirect page. -/
def patientPostbackParse (createResponse : String) : Except PyError String :=
  match (pySplitOn createResponse "||").get? 2 with
  | none => .error .indexError
  | some seg =>
    let redirectPage := unquote (pyReplace seg "|" "")
    if pyIn "exception" redirectPage then
      .error (.integrationAPIError "brightree"
        ("Failed to create/update new patient: " ++ redirectPage) 500)
    else .ok redirectPage

/-- Postback handling of create_sales_order (after the POST): the whole raw
response is percent-decoded first, then split on double pipes; the segment
at index 2 has its remaining pipes stripped; a segment whose lowercase form
contains the text exception raises an IntegrationAPIError reporting the
segment; otherwise the segment is appended to the base origin, and the
order key is the part between the text SalesOrderKey= and the next
ampersand.  The result is the order key together with the absolute redirect
page. -/
def salesOrderPostbackParse (response : String) : Except PyError (String × String) :=
  match (pySplitOn (unquote response) "||").get? 2 with
  | none => .error .indexError
  | some seg =>
    let redirectPage := pyReplace seg "|" ""
    if pyIn "exception" (pyLower redirectPage) then
      .error (.integrationAPIError "brightree"
        ("Failed to create new sales order: " ++ redirectPage) 500)
    else
      let redirectPage := brightreeUrl ++ redirectPage
      match (pySplitOn redirectPage "SalesOrderKey=").get? 1 with
      | none => .error .indexError
      | some keyPart =>
        match pySplitOn keyPart "&" with
        | orderKey :: _ => .ok (orderKey, redirectPage)
        | [] => .error .indexError

/-- The decoded redirect segment of a patient postback response, in the
order create_update_patient computes it: split, take index 2, strip pipes,
percent-decode. -/
def patientDecodedSegment (s : String) : Option String :=
  ((pySplitOn s "||").get? 2).map (fun seg => unquote (pyReplace seg "|" ""))

/-- The decoded redirect segment of a sales-order postback response, in the
order create_sales_order computes it: percent-decode the whole response,
split, take index 2, strip pipes. -/
def salesDecodedSegment (s : String) : Option String :=
  ((pySplitOn (unquote s) "||").get? 2).map (fun seg => pyReplace seg "|" "")

/-! ## Business records

The validated, caller-facing records, with the fields the two builders
read.  String fields hold the output of the pydantic validators. -/

/-- A BasePatient record as the patient builder consumes it. -/
structure BasePatientRec where
  patient_id : Int
  name_first : String
  name_last : String
  name_middle : String
  name_suffix : String
  name_preferred : String
  email : String
  dob : String
  ssn : String
  phone_home : String
  phone_mobile : String
  phone_fax : String

/-- A SalesOrder record as the order builder consumes it. -/
structure SalesOrderRec where
  patient_id : Int
  scheduled_time : String
  actual_time : String
  scheduled_date : String
  actual_date : String
  phone_delivery : String
  phone_mobile : String
  order_notes : String
  delivery_notes : String

/-! ## Form payload builders

The two form field maps, transcribed entry for entry from the dict literals
in create_update_patient and create_sales_order (written as appended groups
of ten entries to keep elaboration cheap; the appended result is the one
flat insertion-ordered dict).  The extracted page tokens arrive as the
Optional values the extractor returned (an f-string renders a missing token
as the text None), the record fields arrive validated, and the calendar
state entries embed the current date array. -/

/-- The complete patient form field map of create_update_patient. -/
def createUpdatePatientFormData (viewStateVal viewStateGenVal eventValidationVal hfLobKey : Option String)
    (patient : BasePatientRec) (curDateArray : List Int) (dobInput : String) :
    List (String × FormVal) :=
  [
   ("ctl00$ctl00$pageSM", .fstr "ctl00$ctl00$ctl00$ctl00$c$btnContextSavePanel|ctl00$ctl00$c$btnContextSave"),
   ("__EVENTTARGET", .fstr "ctl00$ctl00$c$btnContextSave"),
   ("__EVENTARGUMENT", .fstr ""),
   ("__LASTFOCUS", .fstr ""),
   ("__VIEWSTATE", .fstr (pyStr viewStateVal)),
   ("__VIEWSTATEGENERATOR", .fstr (pyStr viewStateGenVal)),
   ("__EVENTVALIDATION", .fstr (pyStr eventValidationVal)),
   ("ctl00_ctl00_c_EditContextMenu_ClientState", .fstr ""),
   ("ctl00_ctl00_c_SaveContextMenu_ClientState", .fstr ""),
   ("ctl00_ctl00_c_btnContextSave_ClientState", .fjson (.jobj [
      ("text", .jstr ""),
      ("value", .jstr ""),
      ("checked", .jbool false),
      ("target", .jstr ""),
      ("navigateUrl", .jstr ""),
      ("commandName", .jstr "Save"),
      ("commandArgument", .jstr ""),
      ("autoPostBack", .jbool true),
      ("selectedToggleStateIndex", .jnum 0),
      ("validationGroup", .jnull),
      ("readOnly", .jbool false),
      ("primary", .jbool false),
      ("enabled", .jbool true)]))] ++
  [
   ("ctl00_ctl00_c_btnSaveSplit_ClientState", .fjson (.jobj [
      ("text", .jstr "Save"),
      ("value", .jstr ""),
      ("checked", .jbool false),
      ("target", .jstr ""),
      ("navigateUrl", .jstr ""),
      ("commandName", .jstr ""),
      ("commandArgument", .jstr ""),
      ("autoPostBack", .jbool false),
      ("selectedToggleStateIndex", .jnum 0),
      ("validationGroup", .jnull),
      ("readOnly", .jbool false),
      ("primary", .jbool false),
      ("enabled", .jbool true)])),
   ("ctl00_ctl00_c_btnNewSalesOrder_ClientState", .fjson (.jobj [
      ("text", .jstr "New Sales Order"),
      ("value", .jstr ""),
      ("checked", .jbool false),
      ("target", .jstr ""),
      ("navigateUrl", .jstr ""),
      ("commandName", .jstr ""),
      ("commandArgument", .jstr ""),
      ("autoPostBack", .jbool true),
      ("selectedToggleStateIndex", .jnum 0),
      ("validationGroup", .jnull),
      ("readOnly", .jbool false),
      ("primary", .jbool false),
      ("enabled", .jbool false)])),
   ("ctl00_ctl00_c_btnPickup_ClientState", .fjson (.jobj [
      ("text", .jstr "New Pickup/Exchange"),
      ("value", .jstr ""),
      ("checked", .jbool false),
      ("target", .jstr ""),
      ("navigateUrl", .jstr ""),
      ("commandName", .jstr ""),
      ("commandArgument", .jstr ""),
      ("autoPostBack", .jbool true),
      ("selectedToggleStateIndex", .jnum 0),
      ("validationGroup", .jnull),
      ("readOnly", .jbool false),
      ("primary", .jbool false),
      ("enabled", .jbool false)])),
   ("ctl00_ctl00_c_btnLaunch_btnLaunch_Menu_ClientState", .fstr ""),
   ("ctl00_ctl00_c_btnLaunch_btnLaunch_Button_ClientState", .fjson (.jobj [
      ("text", .jstr "Launch"),
      ("value", .jstr ""),
      ("checked", .jbool false),
      ("target", .jstr ""),
      ("navigateUrl", .jstr ""),
      ("commandName", .jstr ""),
      ("commandArgument", .jstr ""),
      ("autoPostBack", .jbool true),
      ("selectedToggleStateIndex", .jnum 0),
      ("validationGroup", .jnull),
      ("readOnly", .jbool false),
      ("primary", .jbool false),
      ("enabled", .jbool true)])),
   ("ctl00_ctl00_c_PtAppRegControl_btnDoInvite_ClientState", .fjson (.jobj [
      ("text", .jstr "DoInvite"),
      ("value", .jstr ""),
      ("checked", .jbool false),
      ("target", .jstr ""),
      ("navigateUrl", .jstr ""),
      ("commandName", .jstr ""),
      ("commandArgument", .jstr ""),
      ("autoPostBack", .jbool true),
      ("selectedToggleStateIndex", .jnum 0),
      ("validationGroup", .jnull),
      ("readOnly", .jbool false),
      ("primary", .jbool false),
      ("enabled", .jbool true)])),
   ("ctl00_ctl00_c_PtAppRegControl_btnDoPasswordReset_ClientState", .fjson (.jobj [
      ("text", .jstr "DoPasswordReset"),
      ("value", .jstr ""),
      ("checked", .jbool false),
      ("target", .jstr ""),
      ("navigateUrl", .jstr ""),
      ("commandName", .jstr ""),
      ("commandArgument", .jstr ""),
      ("autoPostBack", .jbool true),
      ("selectedToggleStateIndex", .jnum 0),
      ("validationGroup", .jnull),
      ("readOnly", .jbool false),
      ("primary", .jbool false),
      ("enabled", .jbool true)])),
   ("ctl00_ctl00_c_PtAppRegControl_btnViewQRCode_ClientState", .fjson (.jobj [
      ("text", .jstr "DoInvite"),
      ("value", .jstr ""),
      ("checked", .jbool false),
      ("target", .jstr ""),
      ("navigateUrl", .jstr ""),
      ("commandName", .jstr ""),
      ("commandArgument", .jstr ""),
      ("autoPostBack", .jbool true),
      ("selectedToggleStateIndex", .jnum 0),
      ("validationGroup", .jnull),
      ("readOnly", .jbool false),
      ("primary", .jbool false),
      ("enabled", .jbool true)])),
   ("ctl00$ctl00$c$ssnControl$hfSSNRetrieved", .fstr "False"),
   ("ctl00$ctl00$c$ssnControl$hfSSN", .fstr "")] ++
  [
   ("ctl00$ctl00$c$hdnShowBanner", .fstr ""),
   ("ctl00$ctl00$c$hdnDMEScriptShowBanner", .fstr ""),
   ("ctl00_ctl00_c_tsTop_ClientState", .fjson (.jobj [
      ("selectedIndexes", .jarr [
        .jstr "1"]),
      ("logEntries", .jarr []),
      ("scrollState", .jobj [
])])),
   ("ctl00$ctl00$c$c$txtLastName", .fstr patient.name_last),
   ("ctl00$ctl00$c$c$txtFirstName", .fstr patient.name_first),
   ("ctl00$ctl00$c$c$txtMiddleName", .fstr patient.name_middle),
   ("ctl00$ctl00$c$c$txtPreferredName", .fstr patient.name_preferred),
   ("ctl00$ctl00$c$c$txtSuffix", .fstr patient.name_suffix),
   ("ctl00$ctl00$c$c$hmeDOB", .fstr patient.dob),
   ("ctl00$ctl00$c$c$hmeDOB$dateInput", .fstr dobInput)] ++
  [
   ("ctl00_ctl00_c_c_hmeDOB_dateInput_ClientState", .fjson (.jobj [
      ("enabled", .jbool true),
      ("emptyMessage", .jstr ""),
      ("validationText", .jstr (if patient.dob == "" then "" else (patient.dob ++ "-00-00-00"))),
      ("valueAsString", .jstr (if patient.dob == "" then "" else (patient.dob ++ "-00-00-00"))),
      ("minDateStr", .jstr "1753-01-02-00-00-00"),
      ("maxDateStr", .jstr "9999-12-31-00-00-00"),
      ("lastSetTextBoxValue", .jstr dobInput)])),
   ("ctl00_ctl00_c_c_hmeDOB_calendar_SD", .fjson (.jarr [])),
   ("ctl00_ctl00_c_c_hmeDOB_calendar_AD", .fjson (.jarr [
      .jarr [
        .jnum 1753,
        .jnum 1,
        .jnum 2],
      .jarr [
        .jnum 9999,
        .jnum 12,
        .jnum 31],
      jintList curDateArray])),
   ("ctl00_ctl00_c_c_hmeDOB_ClientState", .fjson (.jobj [
      ("minDateStr", .jstr "1753-01-02-00-00-00"),
      ("maxDateStr", .jstr "9999-12-31-00-00-00")])),
   ("ctl00$ctl00$c$c$ssnControl$hmeSSN", .fstr patient.ssn),
   ("ctl00_ctl00_c_c_ssnControl_hmeSSN_ClientState", .fjson (.jobj [
      ("enabled", .jbool true),
      ("emptyMessage", .jstr ""),
      ("validationText", .jstr ""),
      ("valueAsString", .jstr patient.ssn),
      ("valueWithPromptAndLiterals", .jstr patient.ssn),
      ("lastSetTextBoxValue", .jstr patient.ssn)])),
   ("ctl00$ctl00$c$c$ssnControl$currentSSNView$hfSSNRetrieved", .fstr "False"),
   ("ctl00$ctl00$c$c$ssnControl$currentSSNView$hfSSN", .fstr ""),
   ("ctl00$ctl00$c$c$ssnControl$tbSSNEdit$tb", .fstr ""),
   ("ctl00$ctl00$c$c$ssnControl$tbSSNConfirm$tb", .fstr "")] ++
  [
   ("ctl00$ctl00$c$c$txtAccountNumber", .fstr ""),
   ("ctl00$ctl00$c$c$ddlCustomerType", .fstr "Patient"),
   ("ctl00$ctl00$c$c$txtPriorSystemKey", .fstr ""),
   ("ctl00$ctl00$c$c$MasterFacilityField$cbLookup_Input", .fjson (.jarr [
      .jnull])),
   ("ctl00$ctl00$c$c$MasterFacilityField$cbLookup_value", .fstr "0"),
   ("ctl00$ctl00$c$c$MasterFacilityField$cbLookup_text", .fjson (.jarr [
      .jnull])),
   ("ctl00$ctl00$c$c$MasterFacilityField$cbLookup_clientWidth", .fstr "150px"),
   ("ctl00$ctl00$c$c$MasterFacilityField$cbLookup_clientHeight", .fstr "14px"),
   ("ctl00_ctl00_c_c_btnCopyFacilityAddress_ClientState", .fjson (.jobj [
      ("text", .jstr "Copy Facility Address"),
      ("value", .jstr ""),
      ("checked", .jbool false),
      ("target", .jstr ""),
      ("navigateUrl", .jstr ""),
      ("commandName", .jstr ""),
      ("commandArgument", .jstr ""),
      ("autoPostBack", .jbool true),
      ("selectedToggleStateIndex", .jnum 0),
      ("validationGroup", .jnull),
      ("readOnly", .jbool false),
      ("primary", .jbool false),
      ("enabled", .jbool false)])),
   ("ctl00_ctl00_c_c_ucAlternateID_rdwManageAID_C_btnSaveAID_ClientState", .fjson (.jobj [
      ("text", .jstr "Save "),
      ("value", .jstr ""),
      ("checked", .jbool false),
      ("target", .jstr ""),
      ("navigateUrl", .jstr ""),
      ("commandName", .jstr ""),
      ("commandArgument", .jstr ""),
      ("autoPostBack", .jbool true),
      ("selectedToggleStateIndex", .jnum 0),
      ("validationGroup", .jnull),
      ("readOnly", .jbool false),
      ("primary", .jbool false),
      ("enabled", .jbool true)]))] ++
  [
   ("ctl00_ctl00_c_c_ucAlternateID_rdwManageAID_C_btnDeleteAID_ClientState", .fjson (.jobj [
      ("text", .jstr "Delete"),
      ("value", .jstr ""),
      ("checked", .jbool false),
      ("target", .jstr ""),
      ("navigateUrl", .jstr ""),
      ("commandName", .jstr ""),
      ("commandArgument", .jstr ""),
      ("autoPostBack", .jbool true),
      ("selectedToggleStateIndex", .jnum 0),
      ("validationGroup", .jnull),
      ("readOnly", .jbool false),
      ("primary", .jbool false),
      ("enabled", .jbool true)])),
   ("ctl00_ctl00_c_c_ucAlternateID_rdwManageAID_C_btnCancelAID_ClientState", .fjson (.jobj [
      ("text", .jstr "Cancel"),
      ("value", .jstr ""),
      ("checked", .jbool false),
      ("target", .jstr ""),
      ("navigateUrl", .jstr ""),
      ("commandName", .jstr ""),
      ("commandArgument", .jstr ""),
      ("autoPostBack", .jbool true),
      ("selectedToggleStateIndex", .jnum 0),
      ("validationGroup", .jnull),
      ("readOnly", .jbool false),
      ("primary", .jbool false),
      ("enabled", .jbool true)])),
   ("ctl00_ctl00_c_c_ucAlternateID_rdwManageAID_ClientState", .fstr ""),
   ("ctl00_ctl00_c_c_ucAlternateID_rttAIDClear_ClientState", .fstr ""),
   ("ctl00_ctl00_c_c_btnCopyToInsured_ClientState", .fjson (.jobj [
      ("text", .jstr "Copy to Insured"),
      ("value", .jstr ""),
      ("checked", .jbool false),
      ("target", .jstr ""),
      ("navigateUrl", .jstr ""),
      ("commandName", .jstr ""),
      ("commandArgument", .jstr ""),
      ("autoPostBack", .jbool true),
      ("selectedToggleStateIndex", .jnum 0),
      ("validationGroup", .jnull),
      ("readOnly", .jbool false),
      ("primary", .jbool false),
      ("enabled", .jbool true)])),
   ("ctl00$ctl00$c$c$ucBillingAddressUpdate$hfLobKey", .fstr (pyStr hfLobKey)),
   ("ctl00_ctl00_c_c_ucBillingAddressUpdate_rdwManagePBA_C_btnValidateAddress_ClientState", .fjson (.jobj [
      ("text", .jstr "Validate"),
      ("value", .jstr ""),
      ("checked", .jbool false),
      ("target", .jstr ""),
      ("navigateUrl", .jstr ""),
      ("commandName", .jstr ""),
      ("commandArgument", .jstr ""),
      ("autoPostBack", .jbool true),
      ("selectedToggleStateIndex", .jnum 0),
      ("validationGroup", .jnull),
      ("readOnly", .jbool false),
      ("primary", .jbool false),
      ("enabled", .jbool true)])),
   ("ctl00_ctl00_c_c_ucBillingAddressUpdate_rdwManagePBA_C_btnCancelPBA_ClientState", .fjson (.jobj [
      ("text", .jstr "Cancel"),
      ("value", .jstr ""),
      ("checked", .jbool false),
      ("target", .jstr ""),
      ("navigateUrl", .jstr ""),
      ("commandName", .jstr ""),
      ("commandArgument", .jstr ""),
      ("autoPostBack", .jbool true),
      ("selectedToggleStateIndex", .jnum 0),
      ("validationGroup", .jnull),
      ("readOnly", .jbool false),
      ("primary", .jbool false),
      ("enabled", .jbool true)])),
   ("ctl00$ctl00$c$c$ucBillingAddressUpdate$rdwManagePBA$C$acAddressLine1", .fstr ""),
   ("ctl00$ctl00$c$c$ucBillingAddressUpdate$rdwManagePBA$C$AddressLine2Field", .fstr "")] ++
  [
   ("ctl00$ctl00$c$c$ucBillingAddressUpdate$rdwManagePBA$C$AddressLine3Field", .fstr ""),
   ("ctl00$ctl00$c$c$ucBillingAddressUpdate$rdwManagePBA$C$CityField", .fstr ""),
   ("ctl00$ctl00$c$c$ucBillingAddressUpdate$rdwManagePBA$C$pbStateField", .fstr "CA"),
   ("ctl00$ctl00$c$c$ucBillingAddressUpdate$rdwManagePBA$C$pbCountyField", .fstr "0"),
   ("ctl00$ctl00$c$c$ucBillingAddressUpdate$rdwManagePBA$C$pbCountryField", .fstr "1"),
   ("ctl00$ctl00$c$c$ucBillingAddressUpdate$rdwManagePBA$C$pbPostalCodeField", .fstr "_____-____"),
   ("ctl00_ctl00_c_c_ucBillingAddressUpdate_rdwManagePBA_C_pbPostalCodeField_ClientState", .fjson (.jobj [
      ("enabled", .jbool true),
      ("emptyMessage", .jstr ""),
      ("validationText", .jstr ""),
      ("valueAsString", .jstr "_____-____"),
      ("valueWithPromptAndLiterals", .jstr "_____-____"),
      ("lastSetTextBoxValue", .jstr "_____-____")])),
   ("ctl00_ctl00_c_c_ucBillingAddressUpdate_rdwManagePBA_ClientState", .fstr ""),
   ("ctl00_ctl00_c_c_ucBillingAddressUpdate_rttPBAClear_ClientState", .fstr ""),
   ("ctl00$ctl00$c$c$hmePhone", .fstr patient.phone_home)] ++
  [
   ("ctl00_ctl00_c_c_hmePhone_ClientState", .fjson (.jobj [
      ("enabled", .jbool true),
      ("emptyMessage", .jstr ""),
      ("validationText", .jstr (if pyIn "_" patient.phone_home then "" else patient.phone_home)),
      ("valueAsString", .jstr patient.phone_home),
      ("valueWithPromptAndLiterals", .jstr patient.phone_home),
      ("lastSetTextBoxValue", .jstr patient.phone_home)])),
   ("ctl00$ctl00$c$c$hmeFax", .fstr patient.phone_fax),
   ("ctl00_ctl00_c_c_hmeFax_ClientState", .fjson (.jobj [
      ("enabled", .jbool true),
      ("emptyMessage", .jstr ""),
      ("validationText", .jstr (if pyIn "_" patient.phone_fax then "" else patient.phone_fax)),
      ("valueAsString", .jstr patient.phone_fax),
      ("valueWithPromptAndLiterals", .jstr patient.phone_fax),
      ("lastSetTextBoxValue", .jstr patient.phone_fax)])),
   ("ctl00$ctl00$c$c$hmeMobilePhone", .fstr patient.phone_mobile),
   ("ctl00_ctl00_c_c_hmeMobilePhone_ClientState", .fjson (.jobj [
      ("enabled", .jbool true),
      ("emptyMessage", .jstr ""),
      ("validationText", .jstr (if pyIn "_" patient.phone_mobile then "" else patient.phone_mobile)),
      ("valueAsString", .jstr patient.phone_mobile),
      ("valueWithPromptAndLiterals", .jstr patient.phone_mobile),
      ("lastSetTextBoxValue", .jstr patient.phone_mobile)])),
   ("ctl00$ctl00$c$c$txtEmailAddress", .fstr patient.email),
   ("ctl00$ctl00$c$c$CustomFields$CustomFieldKey66", .fstr ""),
   ("ctl00$ctl00$c$c$CustomFields$CustomFieldKey69", .fstr ""),
   ("ctl00$ctl00$c$c$CustomFields$CustomFieldKey73", .fstr ""),
   ("ctl00$ctl00$c$c$CustomFields$CustomFieldKey71", .fstr "")] ++
  [
   ("ctl00$ctl00$c$c$CustomFields$CustomFieldKey23", .fstr ""),
   ("ctl00$ctl00$c$c$CustomFields$CustomFieldKey26", .fstr ""),
   ("ctl00$ctl00$c$c$CustomFields$CustomFieldKey31", .fstr ""),
   ("ctl00$ctl00$c$c$CustomFields$CustomFieldKey43", .fstr ""),
   ("ctl00$ctl00$c$c$CustomFields$CustomFieldKey32", .fstr ""),
   ("ctl00$ctl00$c$c$CustomFields$CustomFieldKey10", .fstr ""),
   ("ctl00$ctl00$c$c$CustomFields$CustomFieldKey20", .fstr ""),
   ("ctl00$ctl00$c$c$CustomFields$CustomFieldKey21", .fstr ""),
   ("ctl00$ctl00$c$c$CustomFields$CustomFieldKey30", .fstr ""),
   ("ctl00$ctl00$c$c$CustomFields$CustomFieldKey34", .fstr "")] ++
  [
   ("ctl00$ctl00$c$c$CustomFields$CustomFieldKey27", .fstr ""),
   ("ctl00$ctl00$c$c$CustomFields$CustomFieldKey29", .fstr ""),
   ("ctl00$ctl00$c$c$CustomFields$CustomFieldKey46", .fstr ""),
   ("ctl00$ctl00$c$c$CustomFields$CustomFieldKey33", .fstr ""),
   ("ctl00$ctl00$c$c$CustomFields$CustomFieldKey49", .fstr ""),
   ("ctl00$ctl00$c$c$CustomFields$CustomFieldKey50", .fstr ""),
   ("ctl00$ctl00$c$c$CustomFields$CustomFieldKey64", .fstr ""),
   ("ctl00$ctl00$c$c$CustomFields$CustomFieldKey65", .fstr ""),
   ("ctl00$ctl00$c$c$CustomFields$CustomFieldKey70", .fstr ""),
   ("ctl00$ctl00$c$c$CustomFields$CustomFieldKey72", .fstr "")] ++
  [
   ("ctl00$ctl00$c$c$CustomFields$hdnCustomFieldList", .fstr ""),
   ("ctl00$ctl00$c$c$txtDiscountPercent", .fstr "0%"),
   ("ctl00_ctl00_c_c_txtDiscountPercent_ClientState", .fjson (.jobj [
      ("enabled", .jbool false),
      ("emptyMessage", .jstr ""),
      ("validationText", .jstr "0"),
      ("valueAsString", .jstr "0"),
      ("minValue", .jnum 0),
      ("maxValue", .jnum 100),
      ("lastSetTextBoxValue", .jstr "0%")])),
   ("ctl00$ctl00$c$c$luTaxZone$cbLookup_Input", .fjson (.jarr [
      .jnull])),
   ("ctl00$ctl00$c$c$luTaxZone$cbLookup_value", .fstr "0"),
   ("ctl00$ctl00$c$c$luTaxZone$cbLookup_text", .fjson (.jarr [
      .jnull])),
   ("ctl00$ctl00$c$c$luTaxZone$cbLookup_clientWidth", .fstr "150px"),
   ("ctl00$ctl00$c$c$luTaxZone$cbLookup_clientHeight", .fstr "14px"),
   ("ctl00$ctl00$c$c$ddlBranch", .fstr "102"),
   ("ctl00$ctl00$c$c$ddlAccountGroup", .fstr "0")] ++
  [
   ("ctl00$ctl00$c$c$ddlPtGrp", .fstr "1"),
   ("ctl00$ctl00$c$c$txtUser1", .fstr ""),
   ("ctl00$ctl00$c$c$txtUser2", .fstr ""),
   ("ctl00$ctl00$c$c$txtUser3", .fstr ""),
   ("ctl00$ctl00$c$c$txtUser4", .fstr ""),
   ("ctl00$ctl00$c$c$ddlPOS", .fstr "4"),
   ("ctl00$ctl00$c$c$rdpDateOfAdmission", .fstr ""),
   ("ctl00$ctl00$c$c$rdpDateOfAdmission$dateInput", .fstr ""),
   ("ctl00_ctl00_c_c_rdpDateOfAdmission_dateInput_ClientState", .fjson (.jobj [
      ("enabled", .jbool true),
      ("emptyMessage", .jstr ""),
      ("validationText", .jstr ""),
      ("valueAsString", .jstr ""),
      ("minDateStr", .jstr "1753-01-02-00-00-00"),
      ("maxDateStr", .jstr "9999-12-31-00-00-00"),
      ("lastSetTextBoxValue", .jstr "")])),
   ("ctl00_ctl00_c_c_rdpDateOfAdmission_calendar_SD", .fjson (.jarr []))] ++
  [
   ("ctl00_ctl00_c_c_rdpDateOfAdmission_calendar_AD", .fjson (.jarr [
      .jarr [
        .jnum 1753,
        .jnum 1,
        .jnum 2],
      .jarr [
        .jnum 9999,
        .jnum 12,
        .jnum 31],
      jintList curDateArray])),
   ("ctl00_ctl00_c_c_rdpDateOfAdmission_ClientState", .fjson (.jobj [
      ("minDateStr", .jstr "1753-01-02-00-00-00"),
      ("maxDateStr", .jstr "9999-12-31-00-00-00")])),
   ("ctl00$ctl00$c$c$rdpDateOfDischarge", .fstr ""),
   ("ctl00$ctl00$c$c$rdpDateOfDischarge$dateInput", .fstr ""),
   ("ctl00_ctl00_c_c_rdpDateOfDischarge_dateInput_ClientState", .fjson (.jobj [
      ("enabled", .jbool true),
      ("emptyMessage", .jstr ""),
      ("validationText", .jstr ""),
      ("valueAsString", .jstr ""),
      ("minDateStr", .jstr "1753-01-02-00-00-00"),
      ("maxDateStr", .jstr "9999-12-31-00-00-00"),
      ("lastSetTextBoxValue", .jstr "")])),
   ("ctl00_ctl00_c_c_rdpDateOfDischarge_calendar_SD", .fjson (.jarr [])),
   ("ctl00_ctl00_c_c_rdpDateOfDischarge_calendar_AD", .fjson (.jarr [
      .jarr [
        .jnum 1753,
        .jnum 1,
        .jnum 2],
      .jarr [
        .jnum 9999,
        .jnum 12,
        .jnum 31],
      jintList curDateArray])),
   ("ctl00_ctl00_c_c_rdpDateOfDischarge_ClientState", .fjson (.jobj [
      ("minDateStr", .jstr "1753-01-02-00-00-00"),
      ("maxDateStr", .jstr "9999-12-31-00-00-00")])),
   ("ctl00$ctl00$c$c$chkActiveAddress", .fstr "on"),
   ("ctl00_ctl00_c_c_btnAdditionDeliveryAddress_ClientState", .fjson (.jobj [
      ("text", .jstr "Additional Address"),
      ("value", .jstr ""),
      ("checked", .jbool false),
      ("target", .jstr ""),
      ("navigateUrl", .jstr ""),
      ("commandName", .jstr ""),
      ("commandArgument", .jstr ""),
      ("autoPostBack", .jbool true),
      ("selectedToggleStateIndex", .jnum 0),
      ("validationGroup", .jnull),
      ("readOnly", .jbool false),
      ("primary", .jbool false),
      ("enabled", .jbool false)]))] ++
  [
   ("ctl00$ctl00$c$c$ucAdditionalDeliveryAddress$hfLobKey", .fstr (pyStr hfLobKey)),
   ("ctl00_ctl00_c_c_ucAdditionalDeliveryAddress_rdwManagePBA_C_btnValidateAddress_ClientState", .fjson (.jobj [
      ("text", .jstr "Validate"),
      ("value", .jstr ""),
      ("checked", .jbool false),
      ("target", .jstr ""),
      ("navigateUrl", .jstr ""),
      ("commandName", .jstr ""),
      ("commandArgument", .jstr ""),
      ("autoPostBack", .jbool true),
      ("selectedToggleStateIndex", .jnum 0),
      ("validationGroup", .jnull),
      ("readOnly", .jbool false),
      ("primary", .jbool false),
      ("enabled", .jbool true)])),
   ("ctl00_ctl00_c_c_ucAdditionalDeliveryAddress_rdwManagePBA_C_btnCancelPBA_ClientState", .fjson (.jobj [
      ("text", .jstr "Cancel"),
      ("value", .jstr ""),
      ("checked", .jbool false),
      ("target", .jstr ""),
      ("navigateUrl", .jstr ""),
      ("commandName", .jstr ""),
      ("commandArgument", .jstr ""),
      ("autoPostBack", .jbool true),
      ("selectedToggleStateIndex", .jnum 0),
      ("validationGroup", .jnull),
      ("readOnly", .jbool false),
      ("primary", .jbool false),
      ("enabled", .jbool true)])),
   ("ctl00$ctl00$c$c$ucAdditionalDeliveryAddress$rdwManagePBA$C$acAddressLine1", .fstr ""),
   ("ctl00$ctl00$c$c$ucAdditionalDeliveryAddress$rdwManagePBA$C$AddressLine2Field", .fstr ""),
   ("ctl00$ctl00$c$c$ucAdditionalDeliveryAddress$rdwManagePBA$C$AddressLine3Field", .fstr ""),
   ("ctl00$ctl00$c$c$ucAdditionalDeliveryAddress$rdwManagePBA$C$CityField", .fstr ""),
   ("ctl00$ctl00$c$c$ucAdditionalDeliveryAddress$rdwManagePBA$C$pbStateField", .fstr "CA"),
   ("ctl00$ctl00$c$c$ucAdditionalDeliveryAddress$rdwManagePBA$C$pbCountyField", .fstr "0"),
   ("ctl00$ctl00$c$c$ucAdditionalDeliveryAddress$rdwManagePBA$C$pbCountryField", .fstr "1")] ++
  [
   ("ctl00$ctl00$c$c$ucAdditionalDeliveryAddress$rdwManagePBA$C$pbPostalCodeField", .fstr "_____-____"),
   ("ctl00_ctl00_c_c_ucAdditionalDeliveryAddress_rdwManagePBA_C_pbPostalCodeField_ClientState", .fjson (.jobj [
      ("enabled", .jbool true),
      ("emptyMessage", .jstr ""),
      ("validationText", .jstr ""),
      ("valueAsString", .jstr "_____-____"),
      ("valueWithPromptAndLiterals", .jstr "_____-____"),
      ("lastSetTextBoxValue", .jstr "_____-____")])),
   ("ctl00_ctl00_c_c_ucAdditionalDeliveryAddress_rdwManagePBA_ClientState", .fstr ""),
   ("ctl00_ctl00_c_c_ucAdditionalDeliveryAddress_rttPBAClear_ClientState", .fstr ""),
   ("ctl00$ctl00$c$c$PrimaryDeliveryAddress$i0$hfPtPrimaryDeliveryAddrKey", .fstr ""),
   ("ctl00_ctl00_c_c_PrimaryDeliveryAddress_i0_btnSameAsBillingAddressPrimary_ClientState", .fjson (.jobj [
      ("text", .jstr "Same as Billing Address"),
      ("value", .jstr ""),
      ("checked", .jbool false),
      ("target", .jstr ""),
      ("navigateUrl", .jstr ""),
      ("commandName", .jstr ""),
      ("commandArgument", .jstr ""),
      ("autoPostBack", .jbool true),
      ("selectedToggleStateIndex", .jnum 0),
      ("validationGroup", .jnull),
      ("readOnly", .jbool false),
      ("primary", .jbool false),
      ("enabled", .jbool true)])),
   ("ctl00$ctl00$c$c$PrimaryDeliveryAddress$i0$ucPrimaryAddressUpdate$hfLobKey", .fstr (pyStr hfLobKey)),
   ("ctl00_ctl00_c_c_PrimaryDeliveryAddress_i0_ucPrimaryAddressUpdate_rdwManagePBA_C_btnValidateAddress_ClientState", .fjson (.jobj [
      ("text", .jstr "Validate"),
      ("value", .jstr ""),
      ("checked", .jbool false),
      ("target", .jstr ""),
      ("navigateUrl", .jstr ""),
      ("commandName", .jstr ""),
      ("commandArgument", .jstr ""),
      ("autoPostBack", .jbool true),
      ("selectedToggleStateIndex", .jnum 0),
      ("validationGroup", .jnull),
      ("readOnly", .jbool false),
      ("primary", .jbool false),
      ("enabled", .jbool true)])),
   ("ctl00_ctl00_c_c_PrimaryDeliveryAddress_i0_ucPrimaryAddressUpdate_rdwManagePBA_C_btnCancelPBA_ClientState", .fjson (.jobj [
      ("text", .jstr "Cancel"),
      ("value", .jstr ""),
      ("checked", .jbool false),
      ("target", .jstr ""),
      ("navigateUrl", .jstr ""),
      ("commandName", .jstr ""),
      ("commandArgument", .jstr ""),
      ("autoPostBack", .jbool true),
      ("selectedToggleStateIndex", .jnum 0),
      ("validationGroup", .jnull),
      ("readOnly", .jbool false),
      ("primary", .jbool false),
      ("enabled", .jbool true)])),
   ("ctl00$ctl00$c$c$PrimaryDeliveryAddress$i0$ucPrimaryAddressUpdate$rdwManagePBA$C$acAddressLine1", .fstr "")] ++
  [
   ("ctl00$ctl00$c$c$PrimaryDeliveryAddress$i0$ucPrimaryAddressUpdate$rdwManagePBA$C$AddressLine2Field", .fstr ""),
   ("ctl00$ctl00$c$c$PrimaryDeliveryAddress$i0$ucPrimaryAddressUpdate$rdwManagePBA$C$AddressLine3Field", .fstr ""),
   ("ctl00$ctl00$c$c$PrimaryDeliveryAddress$i0$ucPrimaryAddressUpdate$rdwManagePBA$C$CityField", .fstr ""),
   ("ctl00$ctl00$c$c$PrimaryDeliveryAddress$i0$ucPrimaryAddressUpdate$rdwManagePBA$C$pbStateField", .fstr "CA"),
   ("ctl00$ctl00$c$c$PrimaryDeliveryAddress$i0$ucPrimaryAddressUpdate$rdwManagePBA$C$pbCountyField", .fstr "0"),
   ("ctl00$ctl00$c$c$PrimaryDeliveryAddress$i0$ucPrimaryAddressUpdate$rdwManagePBA$C$pbCountryField", .fstr "1"),
   ("ctl00$ctl00$c$c$PrimaryDeliveryAddress$i0$ucPrimaryAddressUpdate$rdwManagePBA$C$pbPostalCodeField", .fstr "_____-____"),
   ("ctl00_ctl00_c_c_PrimaryDeliveryAddress_i0_ucPrimaryAddressUpdate_rdwManagePBA_C_pbPostalCodeField_ClientState", .fjson (.jobj [
      ("enabled", .jbool true),
      ("emptyMessage", .jstr ""),
      ("validationText", .jstr ""),
      ("valueAsString", .jstr "_____-____"),
      ("valueWithPromptAndLiterals", .jstr "_____-____"),
      ("lastSetTextBoxValue", .jstr "_____-____")])),
   ("ctl00_ctl00_c_c_PrimaryDeliveryAddress_i0_ucPrimaryAddressUpdate_rdwManagePBA_ClientState", .fstr ""),
   ("ctl00_ctl00_c_c_PrimaryDeliveryAddress_i0_ucPrimaryAddressUpdate_rttPBAClear_ClientState", .fstr "")] ++
  [
   ("ctl00$ctl00$c$c$PrimaryDeliveryAddress$i0$TxtDescription", .fstr ""),
   ("ctl00_ctl00_c_c_PrimaryDeliveryAddress_i0_TxtDescription_ClientState", .fjson (.jobj [
      ("enabled", .jbool true),
      ("emptyMessage", .jstr ""),
      ("validationText", .jstr ""),
      ("valueAsString", .jstr ""),
      ("lastSetTextBoxValue", .jstr "")])),
   ("ctl00$ctl00$c$c$PrimaryDeliveryAddress$i0$hmeDelPrimaryPhone", .fstr "(___) ___-____"),
   ("ctl00_ctl00_c_c_PrimaryDeliveryAddress_i0_hmeDelPrimaryPhone_ClientState", .fjson (.jobj [
      ("enabled", .jbool true),
      ("emptyMessage", .jstr ""),
      ("validationText", .jstr ""),
      ("valueAsString", .jstr "(___) ___-____"),
      ("valueWithPromptAndLiterals", .jstr "(___) ___-____"),
      ("lastSetTextBoxValue", .jstr "(___) ___-____")])),
   ("ctl00$ctl00$c$c$PrimaryDeliveryAddress$i0$ddlZonePrimary", .fstr "0"),
   ("ctl00_ctl00_c_c_PrimaryDeliveryAddress_ClientState", .fjson (.jobj [
      ("expandedItems", .jarr [
        .jstr "0"]),
      ("logEntries", .jarr []),
      ("selectedItems", .jarr [
        .jstr "0"])])),
   ("ctl00_ctl00_c_c_rwUpdatePHEmail_ClientState", .fstr ""),
   ("ctl00_ctl00_c_c_rwOptInStatusPopup_ClientState", .fstr ""),
   ("ctl00_ctl00_c_c_rwAdditionalAddress_ClientState", .fstr ""),
   ("ctl00_ctl00_c_tsBot_ClientState", .fjson (.jobj [
      ("selectedIndexes", .jarr [
        .jstr "1"]),
      ("logEntries", .jarr []),
      ("scrollState", .jobj [
])]))] ++
  [
   ("radGridClickedRowIndex", .fstr ""),
   ("ptKey", .fstr ""),
   ("policyKey", .fstr ""),
   ("ctl00_ctl00_c_wctl00_ctl00_c_c_MasterFacilityField_cbLookup_ClientState", .fstr ""),
   ("ctl00_ctl00_c_wctl00_ctl00_c_c_luTaxZone_cbLookup_ClientState", .fstr ""),
   ("ctl00_ctl00_c_rwmPE_ClientState", .fstr ""),
   ("ctl00_ctl00_c_concurrencyWin_ClientState", .fstr ""),
   ("ctl00_ctl00_c_rwmMaster_ClientState", .fstr ""),
   ("ctl00_ctl00_c_rwmInvitePatient_ClientState", .fstr ""),
   ("ctl00_ctl00_c_GoScriptsRegisterWindow_ClientState", .fstr "")] ++
  [
   ("ctl00_ctl00_c_DMEScriptsRegisterWindow_ClientState", .fstr ""),
   ("ctl00_ctl00_c_rwConnectWalkInPatient_ClientState", .fstr ""),
   ("ctl00_ctl00_c_rwAdhocMessage_ClientState", .fstr ""),
   ("ctl00_ctl00_c_rwTherapySearchForSO_ClientState", .fstr ""),
   ("ctl00$ctl00$c$ucMainFooter$isReadOnly", .fjson (.jbool false)),
   ("__ASYNCPOST", .fjson (.jbool true)),
   ("RadAJAXControlID", .fstr "ctl00_ctl00_pageRAM")]

/-- The form payload builder of create_update_patient, from the fetched
page to the URL-encoded POST body: extract the three postback tokens by id
and the line-of-business key by name, take the current date array and the
formatted date of birth, build the field map and encode it with
_create_form_data. -/
def createUpdatePatientBody (soup : Soup) (patient : BasePatientRec) (now : DateArray) :
    String :=
  let viewStateVal := extractInputValueById soup "__VIEWSTATE"
  let eventValidationVal := extractInputValueById soup "__EVENTVALIDATION"
  let viewStateGenVal := extractInputValueById soup "__VIEWSTATEGENERATOR"
  let hfLobKey := extractInputValueByName soup "ctl00$ctl00$c$c$ucBillingAddressUpdate$hfLobKey"
  let curDateArray := getDateArrayNow now
  let dobInput := formatDateMdy patient.dob
  createFormData
    (createUpdatePatientFormData viewStateVal viewStateGenVal eventValidationVal hfLobKey
      patient curDateArray dobInput)

/-- The complete sales-order form field map of create_sales_order. -/
def createSalesOrderFormData (viewState viewStateGenerator eventValidation hfLobKey : Option String)
    (order : SalesOrderRec) (curDateArray : List Int)
    (actualDateMdy scheduledDateMdy actualDatetime scheduledDatetime : String) :
    List (String × FormVal) :=
  [
   ("ctl00$ctl00$pageSM", .fstr "ctl00$ctl00$ctl00$ctl00$c$pnlSOData1Panel|ctl00$ctl00$c$btnContextSave"),
   ("PageLoadedHiddenTxtBox", .fstr "Set"),
   ("__LASTFOCUS", .fstr ""),
   ("__EVENTTARGET", .fstr "ctl00$ctl00$c$btnContextSave"),
   ("__EVENTARGUMENT", .fstr ""),
   ("__VIEWSTATE", .fstr (pyStr viewState)),
   ("__VIEWSTATEGENERATOR", .fstr (pyStr viewStateGenerator)),
   ("__EVENTVALIDATION", .fstr (pyStr eventValidation)),
   ("ctl00$ctl00$c$hdnRefresh", .fstr ""),
   ("radGridClickedRowIndex", .fstr "")] ++
  [
   ("PuExKey", .fstr ""),
   ("policyKey", .fstr ""),
   ("ctl00_ctl00_c_EditContextMenu_ClientState", .fstr ""),
   ("ctl00_ctl00_c_SaveContextMenu_ClientState", .fstr ""),
   ("ctl00_ctl00_c_btnContextSave_ClientState", .fjson (.jobj [
      ("text", .jstr ""),
      ("value", .jstr ""),
      ("checked", .jbool false),
      ("target", .jstr ""),
      ("navigateUrl", .jstr ""),
      ("commandName", .jstr "Save"),
      ("commandArgument", .jstr ""),
      ("autoPostBack", .jbool true),
      ("selectedToggleStateIndex", .jnum 0),
      ("validationGroup", .jnull),
      ("readOnly", .jbool false),
      ("primary", .jbool false),
      ("enabled", .jbool true)])),
   ("ctl00_ctl00_c_btnSaveSplit_ClientState", .fjson (.jobj [
      ("text", .jstr "Save"),
      ("value", .jstr ""),
      ("checked", .jbool false),
      ("target", .jstr ""),
      ("navigateUrl", .jstr ""),
      ("commandName", .jstr ""),
      ("commandArgument", .jstr ""),
      ("autoPostBack", .jbool false),
      ("selectedToggleStateIndex", .jnum 0),
      ("validationGroup", .jnull),
      ("readOnly", .jbool false),
      ("primary", .jbool false),
      ("enabled", .jbool true)])),
   ("ctl00_ctl00_c_btnConfirm_ClientState", .fjson (.jobj [
      ("text", .jstr "Confirm"),
      ("value", .jstr ""),
      ("checked", .jbool false),
      ("target", .jstr ""),
      ("navigateUrl", .jstr ""),
      ("commandName", .jstr ""),
      ("commandArgument", .jstr ""),
      ("autoPostBack", .jbool true),
      ("selectedToggleStateIndex", .jnum 0),
      ("validationGroup", .jnull),
      ("readOnly", .jbool false),
      ("primary", .jbool false),
      ("enabled", .jbool false)])),
   ("ctl00_ctl00_c_btnPrint_btnPrint_Menu_ClientState", .fstr ""),
   ("ctl00_ctl00_c_btnPrint_btnPrint_Button_ClientState", .fjson (.jobj [
      ("text", .jstr "Print"),
      ("value", .jstr ""),
      ("checked", .jbool false),
      ("target", .jstr ""),
      ("navigateUrl", .jstr ""),
      ("commandName", .jstr "Print"),
      ("commandArgument", .jstr ""),
      ("autoPostBack", .jbool true),
      ("selectedToggleStateIndex", .jnum 0),
      ("validationGroup", .jnull),
      ("readOnly", .jbool false),
      ("primary", .jbool false),
      ("enabled", .jbool false)])),
   ("ctl00_ctl00_c_btnSendPOD_ClientState", .fjson (.jobj [
      ("text", .jstr "Send POD"),
      ("value", .jstr ""),
      ("checked", .jbool false),
      ("target", .jstr ""),
      ("navigateUrl", .jstr ""),
      ("commandName", .jstr ""),
      ("commandArgument", .jstr ""),
      ("autoPostBack", .jbool true),
      ("selectedToggleStateIndex", .jnum 0),
      ("validationGroup", .jnull),
      ("readOnly", .jbool false),
      ("primary", .jbool false),
      ("enabled", .jbool false)]))] ++
  [
   ("ctl00_ctl00_c_btnEligibility_ClientState", .fjson (.jobj [
      ("text", .jstr "Eligibility"),
      ("value", .jstr ""),
      ("checked", .jbool false),
      ("target", .jstr ""),
      ("navigateUrl", .jstr ""),
      ("commandName", .jstr ""),
      ("commandArgument", .jstr ""),
      ("autoPostBack", .jbool true),
      ("selectedToggleStateIndex", .jnum 0),
      ("validationGroup", .jnull),
      ("readOnly", .jbool false),
      ("primary", .jbool false),
      ("enabled", .jbool true)])),
   ("ctl00_ctl00_c_btnVoidNew_btnVoidNew_Menu_ClientState", .fstr ""),
   ("ctl00_ctl00_c_btnVoidNew_btnVoidNew_Button_ClientState", .fjson (.jobj [
      ("text", .jstr "Void"),
      ("value", .jstr ""),
      ("checked", .jbool false),
      ("target", .jstr ""),
      ("navigateUrl", .jstr ""),
      ("commandName", .jstr ""),
      ("commandArgument", .jstr ""),
      ("autoPostBack", .jbool false),
      ("selectedToggleStateIndex", .jnum 0),
      ("validationGroup", .jnull),
      ("readOnly", .jbool false),
      ("primary", .jbool false),
      ("enabled", .jbool true)])),
   ("ctl00_ctl00_c_hypNote_ClientState", .fjson (.jobj [
      ("text", .jstr "New Patient Note"),
      ("value", .jstr ""),
      ("checked", .jbool false),
      ("target", .jstr ""),
      ("navigateUrl", .jstr ""),
      ("commandName", .jstr ""),
      ("commandArgument", .jstr ""),
      ("autoPostBack", .jbool true),
      ("selectedToggleStateIndex", .jnum 0),
      ("validationGroup", .jnull),
      ("readOnly", .jbool false),
      ("primary", .jbool false),
      ("enabled", .jbool false)])),
   ("ctl00_ctl00_c_btnPostBack_ClientState", .fjson (.jobj [
      ("text", .jstr ""),
      ("value", .jstr ""),
      ("checked", .jbool false),
      ("target", .jstr ""),
      ("navigateUrl", .jstr ""),
      ("commandName", .jstr ""),
      ("commandArgument", .jstr ""),
      ("autoPostBack", .jbool true),
      ("selectedToggleStateIndex", .jnum 0),
      ("validationGroup", .jnull),
      ("readOnly", .jbool false),
      ("primary", .jbool false),
      ("enabled", .jbool true)])),
   ("ctl00$ctl00$c$ssnControl$hfSSNRetrieved", .fjson (.jbool false)),
   ("ctl00$ctl00$c$ssnControl$hfSSN", .fstr ""),
   ("ctl00_ctl00_c_PtAppRegControl_btnDoInvite_ClientState", .fjson (.jobj [
      ("text", .jstr "DoInvite"),
      ("value", .jstr ""),
      ("checked", .jbool false),
      ("target", .jstr ""),
      ("navigateUrl", .jstr ""),
      ("commandName", .jstr ""),
      ("commandArgument", .jstr ""),
      ("autoPostBack", .jbool true),
      ("selectedToggleStateIndex", .jnum 0),
      ("validationGroup", .jnull),
      ("readOnly", .jbool false),
      ("primary", .jbool false),
      ("enabled", .jbool true)])),
   ("ctl00_ctl00_c_PtAppRegControl_btnDoPasswordReset_ClientState", .fjson (.jobj [
      ("text", .jstr "DoPasswordReset"),
      ("value", .jstr ""),
      ("checked", .jbool false),
      ("target", .jstr ""),
      ("navigateUrl", .jstr ""),
      ("commandName", .jstr ""),
      ("commandArgument", .jstr ""),
      ("autoPostBack", .jbool true),
      ("selectedToggleStateIndex", .jnum 0),
      ("validationGroup", .jnull),
      ("readOnly", .jbool false),
      ("primary", .jbool false),
      ("enabled", .jbool true)])),
   ("ctl00_ctl00_c_PtAppRegControl_btnViewQRCode_ClientState", .fjson (.jobj [
      ("text", .jstr "DoInvite"),
      ("value", .jstr ""),
      ("checked", .jbool false),
      ("target", .jstr ""),
      ("navigateUrl", .jstr ""),
      ("commandName", .jstr ""),
      ("commandArgument", .jstr ""),
      ("autoPostBack", .jbool true),
      ("selectedToggleStateIndex", .jnum 0),
      ("validationGroup", .jnull),
      ("readOnly", .jbool false),
      ("primary", .jbool false),
      ("enabled", .jbool true)]))] ++
  [
   ("ctl00_ctl00_c_tsTop_ClientState", .fjson (.jobj [
      ("selectedIndexes", .jarr [
        .jstr "0"]),
      ("logEntries", .jarr []),
      ("scrollState", .jobj [
])])),
   ("ctl00$ctl00$c$c$rdpScheduledDeliveryDate", .fstr order.scheduled_date),
   ("ctl00$ctl00$c$c$rdpScheduledDeliveryDate$dateInput", .fstr scheduledDateMdy),
   ("ctl00_ctl00_c_c_rdpScheduledDeliveryDate_dateInput_ClientState", .fjson (.jobj [
      ("enabled", .jbool true),
      ("emptyMessage", .jstr ""),
      ("validationText", .jstr (if order.scheduled_date == "" then "" else (order.scheduled_date ++ "-00-00-00"))),
      ("valueAsString", .jstr (if order.scheduled_date == "" then "" else (order.scheduled_date ++ "-00-00-00"))),
      ("minDateStr", .jstr "1753-01-02-00-00-00"),
      ("maxDateStr", .jstr "9999-12-31-00-00-00"),
      ("lastSetTextBoxValue", .jstr scheduledDateMdy)])),
   ("ctl00_ctl00_c_c_rdpScheduledDeliveryDate_ClientState", .fjson (.jobj [
      ("minDateStr", .jstr "1753-01-02-00-00-00"),
      ("maxDateStr", .jstr "9999-12-31-00-00-00")])),
   ("ctl00$ctl00$c$c$rtpScheduledDeliveryTime", .fstr scheduledDatetime),
   ("ctl00$ctl00$c$c$rtpScheduledDeliveryTime$dateInput", .fstr order.scheduled_time),
   ("ctl00_ctl00_c_c_rtpScheduledDeliveryTime_dateInput_ClientState", .fjson (.jobj [
      ("enabled", .jbool true),
      ("emptyMessage", .jstr ""),
      ("validationText", .jstr scheduledDatetime),
      ("valueAsString", .jstr scheduledDatetime),
      ("minDateStr", .jstr "1980-01-01-00-00-00"),
      ("maxDateStr", .jstr "2099-12-31-00-00-00"),
      ("lastSetTextBoxValue", .jstr order.scheduled_time)])),
   ("ctl00_ctl00_c_c_rtpScheduledDeliveryTime_timeView_ClientState", .fstr ""),
   ("ctl00_ctl00_c_c_rtpScheduledDeliveryTime_ClientState", .fstr "")] ++
  [
   ("ctl00$ctl00$c$c$rdpActualDeliveryDate", .fstr order.actual_date),
   ("ctl00$ctl00$c$c$rdpActualDeliveryDate$dateInput", .fstr actualDateMdy),
   ("ctl00_ctl00_c_c_rdpActualDeliveryDate_dateInput_ClientState", .fjson (.jobj [
      ("enabled", .jbool true),
      ("emptyMessage", .jstr ""),
      ("validationText", .jstr (if order.actual_date == "" then "" else (order.actual_date ++ "-00-00-00"))),
      ("valueAsString", .jstr (if order.actual_date == "" then "" else (order.actual_date ++ "-00-00-00"))),
      ("minDateStr", .jstr "1753-01-02-00-00-00"),
      ("maxDateStr", .jstr "9999-12-31-00-00-00"),
      ("lastSetTextBoxValue", .jstr actualDateMdy)])),
   ("ctl00_ctl00_c_c_rdpActualDeliveryDate_ClientState", .fjson (.jobj [
      ("minDateStr", .jstr "1753-01-02-00-00-00"),
      ("maxDateStr", .jstr "9999-12-31-00-00-00")])),
   ("ctl00$ctl00$c$c$rtpActualDeliveryTime", .fstr actualDatetime),
   ("ctl00$ctl00$c$c$rtpActualDeliveryTime$dateInput", .fstr order.actual_time),
   ("ctl00_ctl00_c_c_rtpActualDeliveryTime_dateInput_ClientState", .fjson (.jobj [
      ("enabled", .jbool true),
      ("emptyMessage", .jstr ""),
      ("validationText", .jstr actualDatetime),
      ("valueAsString", .jstr actualDatetime),
      ("minDateStr", .jstr "1980-01-01-00-00-00"),
      ("maxDateStr", .jstr "2099-12-31-00-00-00"),
      ("lastSetTextBoxValue", .jstr order.actual_time)])),
   ("ctl00_ctl00_c_c_rtpActualDeliveryTime_timeView_ClientState", .fstr ""),
   ("ctl00_ctl00_c_c_rtpActualDeliveryTime_ClientState", .fstr ""),
   ("ctl00$ctl00$c$c$DeliveryAddrVerification$hfLobKey", .fstr (pyStr hfLobKey))] ++
  [
   ("ctl00_ctl00_c_c_DeliveryAddrVerification_rdwManagePBA_C_btnValidateAddress_ClientState", .fjson (.jobj [
      ("text", .jstr "Validate"),
      ("value", .jstr ""),
      ("checked", .jbool false),
      ("target", .jstr ""),
      ("navigateUrl", .jstr ""),
      ("commandName", .jstr ""),
      ("commandArgument", .jstr ""),
      ("autoPostBack", .jbool true),
      ("selectedToggleStateIndex", .jnum 0),
      ("validationGroup", .jnull),
      ("readOnly", .jbool false),
      ("primary", .jbool false),
      ("enabled", .jbool true)])),
   ("ctl00_ctl00_c_c_DeliveryAddrVerification_rdwManagePBA_C_btnCancelPBA_ClientState", .fjson (.jobj [
      ("text", .jstr "Cancel"),
      ("value", .jstr ""),
      ("checked", .jbool false),
      ("target", .jstr ""),
      ("navigateUrl", .jstr ""),
      ("commandName", .jstr ""),
      ("commandArgument", .jstr ""),
      ("autoPostBack", .jbool true),
      ("selectedToggleStateIndex", .jnum 0),
      ("validationGroup", .jnull),
      ("readOnly", .jbool false),
      ("primary", .jbool false),
      ("enabled", .jbool true)])),
   ("ctl00$ctl00$c$c$DeliveryAddrVerification$rdwManagePBA$C$acAddressLine1", .fstr ""),
   ("ctl00$ctl00$c$c$DeliveryAddrVerification$rdwManagePBA$C$AddressLine2Field", .fstr ""),
   ("ctl00$ctl00$c$c$DeliveryAddrVerification$rdwManagePBA$C$AddressLine3Field", .fstr ""),
   ("ctl00$ctl00$c$c$DeliveryAddrVerification$rdwManagePBA$C$CityField", .fstr ""),
   ("ctl00$ctl00$c$c$DeliveryAddrVerification$rdwManagePBA$C$pbStateField", .fstr "CA"),
   ("ctl00$ctl00$c$c$DeliveryAddrVerification$rdwManagePBA$C$pbCountyField", .fstr "0"),
   ("ctl00$ctl00$c$c$DeliveryAddrVerification$rdwManagePBA$C$pbCountryField", .fstr "1"),
   ("ctl00$ctl00$c$c$DeliveryAddrVerification$rdwManagePBA$C$pbPostalCodeField", .fstr "_____-____")] ++
  [
   ("ctl00_ctl00_c_c_DeliveryAddrVerification_rdwManagePBA_C_pbPostalCodeField_ClientState", .fjson (.jobj [
      ("enabled", .jbool true),
      ("emptyMessage", .jstr ""),
      ("validationText", .jstr ""),
      ("valueAsString", .jstr "_____-____"),
      ("valueWithPromptAndLiterals", .jstr "_____-____"),
      ("lastSetTextBoxValue", .jstr "_____-____")])),
   ("ctl00_ctl00_c_c_DeliveryAddrVerification_rdwManagePBA_ClientState", .fstr ""),
   ("ctl00_ctl00_c_c_DeliveryAddrVerification_rttPBAClear_ClientState", .fstr ""),
   ("ctl00$ctl00$c$c$hmeDeliveryPhone", .fstr order.phone_delivery),
   ("ctl00_ctl00_c_c_hmeDeliveryPhone_ClientState", .fjson (.jobj [
      ("enabled", .jbool true),
      ("emptyMessage", .jstr ""),
      ("validationText", .jstr (if pyIn "_" order.phone_delivery then "" else order.phone_delivery)),
      ("valueAsString", .jstr order.phone_delivery),
      ("valueWithPromptAndLiterals", .jstr order.phone_delivery),
      ("lastSetTextBoxValue", .jstr order.phone_delivery)])),
   ("ctl00$ctl00$c$c$hmeDeliveryMobile", .fstr order.phone_mobile),
   ("ctl00_ctl00_c_c_hmeDeliveryMobile_ClientState", .fjson (.jobj [
      ("enabled", .jbool true),
      ("emptyMessage", .jstr ""),
      ("validationText", .jstr (if pyIn "_" order.phone_mobile then "" else order.phone_mobile)),
      ("valueAsString", .jstr order.phone_mobile),
      ("valueWithPromptAndLiterals", .jstr order.phone_mobile),
      ("lastSetTextBoxValue", .jstr order.phone_mobile)])),
   ("ctl00$ctl00$c$c$MasterFacilityField$cbLookup_Input", .fjson (.jarr [
      .jnull])),
   ("ctl00$ctl00$c$c$MasterFacilityField$cbLookup_value", .fstr "0"),
   ("ctl00$ctl00$c$c$MasterFacilityField$cbLookup_text", .fjson (.jarr [
      .jnull]))] ++
  [
   ("ctl00$ctl00$c$c$MasterFacilityField$cbLookup_clientWidth", .fstr "195px"),
   ("ctl00$ctl00$c$c$MasterFacilityField$cbLookup_clientHeight", .fstr "14px"),
   ("ctl00$ctl00$c$c$luTaxZone$cbLookup_Input", .fstr "Corporate"),
   ("ctl00$ctl00$c$c$luTaxZone$cbLookup_value", .fstr "2"),
   ("ctl00$ctl00$c$c$luTaxZone$cbLookup_text", .fstr "Corporate"),
   ("ctl00$ctl00$c$c$luTaxZone$cbLookup_clientWidth", .fstr "195px"),
   ("ctl00$ctl00$c$c$luTaxZone$cbLookup_clientHeight", .fstr "14px"),
   ("ctl00$ctl00$c$c$txtNote", .fstr order.order_notes),
   ("ctl00$ctl00$c$c$txtDeliveryNote", .fstr order.delivery_notes),
   ("ctl00$ctl00$c$c$ddlSetupMethod", .fstr "0")] ++
  [
   ("ctl00$ctl00$c$c$luDeliveryTechnician$cbLookup_Input", .fjson (.jarr [
      .jnull])),
   ("ctl00$ctl00$c$c$luDeliveryTechnician$cbLookup_value", .fstr "0"),
   ("ctl00$ctl00$c$c$luDeliveryTechnician$cbLookup_text", .fjson (.jarr [
      .jnull])),
   ("ctl00$ctl00$c$c$luDeliveryTechnician$cbLookup_clientWidth", .fstr "135px"),
   ("ctl00$ctl00$c$c$luDeliveryTechnician$cbLookup_clientHeight", .fstr "14px"),
   ("ctl00$ctl00$c$c$ddlFulfillmentVendor", .fstr "0"),
   ("ctl00_ctl00_c_c_ucPODStatus_btnCancelPOD_ClientState", .fjson (.jobj [
      ("text", .jstr "Cancel POD"),
      ("value", .jstr ""),
      ("checked", .jbool false),
      ("target", .jstr ""),
      ("navigateUrl", .jstr ""),
      ("commandName", .jstr ""),
      ("commandArgument", .jstr ""),
      ("autoPostBack", .jbool true),
      ("selectedToggleStateIndex", .jnum 0),
      ("validationGroup", .jnull),
      ("readOnly", .jbool false),
      ("primary", .jbool false),
      ("enabled", .jbool true)])),
   ("ctl00$ctl00$c$c$BTddlShipCarrier", .fstr "0"),
   ("ctl00$ctl00$c$c$BTddlShipMethod", .fstr "0"),
   ("ctl00_ctl00_c_c_btnSendBrightShip_ClientState", .fjson (.jobj [
      ("text", .jstr "Send to BrightSHIP"),
      ("value", .jstr ""),
      ("checked", .jbool false),
      ("target", .jstr ""),
      ("navigateUrl", .jstr ""),
      ("commandName", .jstr ""),
      ("commandArgument", .jstr ""),
      ("autoPostBack", .jbool true),
      ("selectedToggleStateIndex", .jnum 0),
      ("validationGroup", .jnull),
      ("readOnly", .jbool false),
      ("primary", .jbool false),
      ("enabled", .jbool false)]))] ++
  [
   ("ctl00$ctl00$c$c$BTddlTrackCarrier", .fstr "0"),
   ("ctl00$ctl00$c$c$txtnewTracking", .fstr ""),
   ("ctl00_ctl00_c_c_BTShipTrackingAdd_ClientState", .fjson (.jobj [
      ("text", .jstr "Add Tracking"),
      ("value", .jstr ""),
      ("checked", .jbool false),
      ("target", .jstr ""),
      ("navigateUrl", .jstr ""),
      ("commandName", .jstr ""),
      ("commandArgument", .jstr ""),
      ("autoPostBack", .jbool true),
      ("selectedToggleStateIndex", .jnum 0),
      ("validationGroup", .jnull),
      ("readOnly", .jbool false),
      ("primary", .jbool false),
      ("enabled", .jbool false)])),
   ("ctl00$ctl00$c$c$BTShipTracking$ctl00$ctl03$ctl01$PageSizeComboBox", .fstr "5"),
   ("ctl00_ctl00_c_c_BTShipTracking_ctl00_ctl03_ctl01_PageSizeComboBox_ClientState", .fstr ""),
   ("ctl00_ctl00_c_c_BTShipTracking_ClientState", .fstr ""),
   ("ctl00$ctl00$c$c$ddlManualHoldReason", .fstr "0"),
   ("ctl00$ctl00$c$c$rdpStopDate", .fstr ""),
   ("ctl00$ctl00$c$c$rdpStopDate$dateInput", .fstr ""),
   ("ctl00_ctl00_c_c_rdpStopDate_dateInput_ClientState", .fjson (.jobj [
      ("enabled", .jbool true),
      ("emptyMessage", .jstr ""),
      ("validationText", .jstr ""),
      ("valueAsString", .jstr ""),
      ("minDateStr", .jstr "1753-01-02-00-00-00"),
      ("maxDateStr", .jstr "9999-12-31-00-00-00"),
      ("lastSetTextBoxValue", .jstr "")]))] ++
  [
   ("ctl00_ctl00_c_c_rdpStopDate_ClientState", .fjson (.jobj [
      ("minDateStr", .jstr "1753-01-02-00-00-00"),
      ("maxDateStr", .jstr "9999-12-31-00-00-00")])),
   ("ctl00$ctl00$c$c$ddlStopReason", .fstr "0"),
   ("ctl00$ctl00$c$c$ddlBranch", .fstr "102"),
   ("ctl00$ctl00$c$c$luLocation$cbLookup_Input", .fstr "AA - Nationwide Medical, Inc."),
   ("ctl00$ctl00$c$c$luLocation$cbLookup_value", .fstr "102"),
   ("ctl00$ctl00$c$c$luLocation$cbLookup_text", .fstr "AA - Nationwide Medical, Inc."),
   ("ctl00$ctl00$c$c$luLocation$cbLookup_clientWidth", .fstr "135px"),
   ("ctl00$ctl00$c$c$luLocation$cbLookup_clientHeight", .fstr "14px"),
   ("ctl00$ctl00$c$c$ddlStatus", .fstr "1"),
   ("ctl00$ctl00$c$c$ddlClassification", .fstr "0")] ++
  [
   ("ctl00$ctl00$c$c$ddlPlaceOfService", .fstr "4"),
   ("ctl00$ctl00$c$c$rdpDateOfAdmission", .fstr ""),
   ("ctl00$ctl00$c$c$rdpDateOfAdmission$dateInput", .fstr ""),
   ("ctl00_ctl00_c_c_rdpDateOfAdmission_dateInput_ClientState", .fjson (.jobj [
      ("enabled", .jbool true),
      ("emptyMessage", .jstr ""),
      ("validationText", .jstr ""),
      ("valueAsString", .jstr ""),
      ("minDateStr", .jstr "1753-01-02-00-00-00"),
      ("maxDateStr", .jstr "9999-12-31-00-00-00"),
      ("lastSetTextBoxValue", .jstr "")])),
   ("ctl00_ctl00_c_c_rdpDateOfAdmission_ClientState", .fjson (.jobj [
      ("minDateStr", .jstr "1753-01-02-00-00-00"),
      ("maxDateStr", .jstr "9999-12-31-00-00-00")])),
   ("ctl00$ctl00$c$c$rdpDateOfDischarge", .fstr ""),
   ("ctl00$ctl00$c$c$rdpDateOfDischarge$dateInput", .fstr ""),
   ("ctl00_ctl00_c_c_rdpDateOfDischarge_dateInput_ClientState", .fjson (.jobj [
      ("enabled", .jbool true),
      ("emptyMessage", .jstr ""),
      ("validationText", .jstr ""),
      ("valueAsString", .jstr ""),
      ("minDateStr", .jstr "1753-01-02-00-00-00"),
      ("maxDateStr", .jstr "9999-12-31-00-00-00"),
      ("lastSetTextBoxValue", .jstr "")])),
   ("ctl00_ctl00_c_c_rdpDateOfDischarge_ClientState", .fjson (.jobj [
      ("minDateStr", .jstr "1753-01-02-00-00-00"),
      ("maxDateStr", .jstr "9999-12-31-00-00-00")])),
   ("ctl00$ctl00$c$c$txtDiscountPercent", .fstr "0%")] ++
  [
   ("ctl00_ctl00_c_c_txtDiscountPercent_ClientState", .fjson (.jobj [
      ("enabled", .jbool false),
      ("emptyMessage", .jstr ""),
      ("validationText", .jstr "0"),
      ("valueAsString", .jstr "0"),
      ("minValue", .jnum 0),
      ("maxValue", .jnum 100),
      ("lastSetTextBoxValue", .jstr "0%")])),
   ("ctl00$ctl00$c$c$txtPO", .fstr ""),
   ("ctl00$ctl00$c$c$txtRefNum", .fstr ""),
   ("ctl00$ctl00$c$c$tbUser1", .fstr ""),
   ("ctl00$ctl00$c$c$tbUser2", .fstr ""),
   ("ctl00$ctl00$c$c$tbUser3", .fstr ""),
   ("ctl00$ctl00$c$c$tbUser4", .fstr ""),
   ("ctl00$ctl00$c$c$tbPriorSystemKey", .fstr ""),
   ("ctl00$ctl00$c$c$ddlWIPState", .fstr "0"),
   ("ctl00$ctl00$c$c$luAssignedTo$cbLookup_Input", .fstr "[All]")] ++
  [
   ("ctl00$ctl00$c$c$luAssignedTo$cbLookup_value", .fstr "0"),
   ("ctl00$ctl00$c$c$luAssignedTo$cbLookup_text", .fstr "[All]"),
   ("ctl00$ctl00$c$c$luAssignedTo$cbLookup_clientWidth", .fstr "135px"),
   ("ctl00$ctl00$c$c$luAssignedTo$cbLookup_clientHeight", .fstr "14px"),
   ("ctl00$ctl00$c$c$rdpDateNeededStd", .fstr ""),
   ("ctl00$ctl00$c$c$rdpDateNeededStd$dateInput", .fstr ""),
   ("ctl00_ctl00_c_c_rdpDateNeededStd_dateInput_ClientState", .fjson (.jobj [
      ("enabled", .jbool false),
      ("emptyMessage", .jstr ""),
      ("validationText", .jstr ""),
      ("valueAsString", .jstr ""),
      ("minDateStr", .jstr "1753-01-02-00-00-00"),
      ("maxDateStr", .jstr "9999-12-31-00-00-00"),
      ("lastSetTextBoxValue", .jstr "")])),
   ("ctl00_ctl00_c_c_rdpDateNeededStd_ClientState", .fjson (.jobj [
      ("minDateStr", .jstr "1753-01-02-00-00-00"),
      ("maxDateStr", .jstr "9999-12-31-00-00-00")])),
   ("ctl00$ctl00$c$c$CustomFields$CustomFieldKey67", .fstr ""),
   ("ctl00$ctl00$c$c$CustomFields$CustomFieldKey11", .fstr "")] ++
  [
   ("ctl00$ctl00$c$c$CustomFields$CustomFieldKey12", .fstr ""),
   ("ctl00$ctl00$c$c$CustomFields$CustomFieldKey62", .fstr ""),
   ("ctl00$ctl00$c$c$CustomFields$CustomFieldKey13", .fstr ""),
   ("ctl00$ctl00$c$c$CustomFields$CustomFieldKey63", .fstr ""),
   ("ctl00$ctl00$c$c$CustomFields$CustomFieldKey41", .fstr ""),
   ("ctl00$ctl00$c$c$CustomFields$CustomFieldKey28", .fstr ""),
   ("ctl00$ctl00$c$c$CustomFields$CustomFieldKey18", .fstr ""),
   ("ctl00$ctl00$c$c$CustomFields$CustomFieldKey24", .fstr ""),
   ("ctl00$ctl00$c$c$CustomFields$CustomFieldKey24$dateInput", .fstr ""),
   ("ctl00_ctl00_c_c_CustomFields_CustomFieldKey24_dateInput_ClientState", .fjson (.jobj [
      ("enabled", .jbool true),
      ("emptyMessage", .jstr ""),
      ("validationText", .jstr ""),
      ("valueAsString", .jstr ""),
      ("minDateStr", .jstr "1753-01-02-00-00-00"),
      ("maxDateStr", .jstr "9999-12-31-00-00-00"),
      ("lastSetTextBoxValue", .jstr "")]))] ++
  [
   ("ctl00_ctl00_c_c_CustomFields_CustomFieldKey24_calendar_SD", .fstr "[]"),
   ("ctl00_ctl00_c_c_CustomFields_CustomFieldKey24_calendar_AD", .fjson (.jarr [
      .jarr [
        .jnum 1753,
        .jnum 1,
        .jnum 2],
      .jarr [
        .jnum 9999,
        .jnum 12,
        .jnum 31],
      jintList curDateArray])),
   ("ctl00_ctl00_c_c_CustomFields_CustomFieldKey24_ClientState", .fjson (.jobj [
      ("minDateStr", .jstr "1753-01-02-00-00-00"),
      ("maxDateStr", .jstr "9999-12-31-00-00-00")])),
   ("ctl00$ctl00$c$c$CustomFields$CustomFieldKey35", .fstr ""),
   ("ctl00$ctl00$c$c$CustomFields$CustomFieldKey35$dateInput", .fstr ""),
   ("ctl00_ctl00_c_c_CustomFields_CustomFieldKey35_dateInput_ClientState", .fjson (.jobj [
      ("enabled", .jbool true),
      ("emptyMessage", .jstr ""),
      ("validationText", .jstr ""),
      ("valueAsString", .jstr ""),
      ("minDateStr", .jstr "1753-01-02-00-00-00"),
      ("maxDateStr", .jstr "9999-12-31-00-00-00"),
      ("lastSetTextBoxValue", .jstr "")])),
   ("ctl00_ctl00_c_c_CustomFields_CustomFieldKey35_calendar_SD", .fstr "[]"),
   ("ctl00_ctl00_c_c_CustomFields_CustomFieldKey35_calendar_AD", .fjson (.jarr [
      .jarr [
        .jnum 1753,
        .jnum 1,
        .jnum 2],
      .jarr [
        .jnum 9999,
        .jnum 12,
        .jnum 31],
      jintList curDateArray])),
   ("ctl00_ctl00_c_c_CustomFields_CustomFieldKey35_ClientState", .fjson (.jobj [
      ("minDateStr", .jstr "1753-01-02-00-00-00"),
      ("maxDateStr", .jstr "9999-12-31-00-00-00")])),
   ("ctl00$ctl00$c$c$CustomFields$CustomFieldKey39", .fstr "")] ++
  [
   ("ctl00$ctl00$c$c$CustomFields$CustomFieldKey47", .fstr ""),
   ("ctl00$ctl00$c$c$CustomFields$CustomFieldKey61", .fstr ""),
   ("ctl00$ctl00$c$c$CustomFields$CustomFieldKey68", .fstr ""),
   ("ctl00$ctl00$c$c$CustomFields$CustomFieldKey74", .fstr ""),
   ("ctl00$ctl00$c$c$CustomFields$CustomFieldKey76", .fstr ""),
   ("ctl00$ctl00$c$c$CustomFields$CustomFieldKey45", .fstr ""),
   ("ctl00$ctl00$c$c$CustomFields$hdnCustomFieldList", .fstr ""),
   ("ctl00_ctl00_c_c_SharedCalendar_SD", .fjson (.jarr [
      .jarr [
        .jnum 2025,
        .jnum 2,
        .jnum 10]])),
   ("ctl00_ctl00_c_c_SharedCalendar_AD", .fjson (.jarr [
      .jarr [
        .jnum 1980,
        .jnum 1,
        .jnum 1],
      .jarr [
        .jnum 2099,
        .jnum 12,
        .jnum 30],
      .jarr [
        .jnum 2025,
        .jnum 2,
        .jnum 1]])),
   ("ctl00_ctl00_c_c_wipEdit_ClientState", .fstr "")] ++
  [
   ("ctl00$ctl00$c$c$DeliveryAddressGrid$rwadditionaldeliveryaddress$C$hfDeliveryAddrKey", .fstr ""),
   ("ctl00$ctl00$c$c$DeliveryAddressGrid$rwadditionaldeliveryaddress$C$addressesGrid$ctl00$ctl03$ctl01$PageSizeComboBox", .fstr "5"),
   ("ctl00_ctl00_c_c_DeliveryAddressGrid_rwadditionaldeliveryaddress_C_addressesGrid_ctl00_ctl03_ctl01_PageSizeComboBox_ClientState", .fstr ""),
   ("ctl00_ctl00_c_c_DeliveryAddressGrid_rwadditionaldeliveryaddress_C_addressesGrid_ClientState", .fstr ""),
   ("ctl00_ctl00_c_c_DeliveryAddressGrid_rwadditionaldeliveryaddress_ClientState", .fstr ""),
   ("ctl00_ctl00_c_tsBot_ClientState", .fjson (.jobj [
      ("selectedIndexes", .jarr [
        .jstr "0"]),
      ("logEntries", .jarr []),
      ("scrollState", .jobj [
])])),
   ("ctl00_ctl00_c_wctl00_ctl00_c_c_MasterFacilityField_cbLookup_ClientState", .fstr ""),
   ("ctl00_ctl00_c_wctl00_ctl00_c_c_luTaxZone_cbLookup_ClientState", .fstr ""),
   ("ctl00_ctl00_c_wctl00_ctl00_c_c_luDeliveryTechnician_cbLookup_ClientState", .fstr ""),
   ("ctl00_ctl00_c_wctl00_ctl00_c_c_luLocation_cbLookup_ClientState", .fstr "")] ++
  [
   ("ctl00_ctl00_c_wctl00_ctl00_c_c_luAssignedTo_cbLookup_ClientState", .fstr ""),
   ("ctl00_ctl00_c_rwmPE_ClientState", .fstr ""),
   ("ctl00_ctl00_c_concurrencyWin_ClientState", .fstr ""),
   ("ctl00_ctl00_c_delWinMstr_ClientState", .fstr ""),
   ("ctl00_ctl00_c_voidWinMstr_ClientState", .fstr ""),
   ("ctl00_ctl00_c_deliveryWinMstr_ClientState", .fstr ""),
   ("ctl00_ctl00_c_validationErrorWindow_ClientState", .fstr ""),
   ("ctl00_ctl00_c_authWinMstr_ClientState", .fstr ""),
   ("ctl00_ctl00_c_rwConnectWalkInPatient_ClientState", .fstr ""),
   ("ctl00_ctl00_c_eligibilityWindow_ClientState", .fstr "")] ++
  [
   ("ctl00_ctl00_c_createCMNWinMstr_ClientState", .fstr ""),
   ("ctl00_ctl00_c_zeroKeyErrorWin_ClientState", .fstr ""),
   ("ctl00_ctl00_c_intakeRentalWarningWindow_ClientState", .fstr ""),
   ("ctl00_ctl00_c_rwmBTMaster_ClientState", .fstr ""),
   ("ctl00_ctl00_c_rwmInvitePatient_ClientState", .fstr ""),
   ("ctl00$ctl00$c$ucMainFooter$isReadOnly", .fjson (.jbool false)),
   ("ctl00_ctl00_c_rttSOPatientBranchSecurity_ClientState", .fstr ""),
   ("__ASYNCPOST", .fjson (.jbool true)),
   ("RadAJAXControlID", .fstr "ctl00_ctl00_c_pnlSOData1")]

/-- The form payload builder of create_sales_order, from the fetched page
to the URL-encoded POST body: extract the three postback tokens and the
line-of-business key by id, format the two dates for display, combine each
date with its time (an invalid combination propagates the ValueError that
_combine_datetime raises, modelled as the none case), take the current date
array, build the field map and encode it with _create_form_data. -/
def createSalesOrderBody (soup : Soup) (order : SalesOrderRec) (now : DateArray) :
    Option String :=
  let viewState := extractInputValueById soup "__VIEWSTATE"
  let viewStateGenerator := extractInputValueById soup "__VIEWSTATEGENERATOR"
  let eventValidation := extractInputValueById soup "__EVENTVALIDATION"
  let hfLobKey := extractInputValueById soup "ctl00$ctl00$c$c$DeliveryAddrVerification$hfLobKey"
  let actualDateMdy := formatDateMdy order.actual_date
  let scheduledDateMdy := formatDateMdy order.scheduled_date
  match combineDatetime order.actual_date order.actual_time,
      combineDatetime order.scheduled_date order.scheduled_time with
  | some actualDatetime, some scheduledDatetime =>
    let curDateArray := getDateArrayNow now
    some (createFormData
      (createSalesOrderFormData viewState viewStateGenerator eventValidation hfLobKey
        order curDateArray actualDateMdy scheduledDateMdy actualDatetime scheduledDatetime))
  | _, _ => none

/-! ## Operation orchestration of create_update_patient

The network and the HTML parsing of result pages are abstracted into an
environment: the result of the patient-key lookup, the parsed soup of the
fetched patient page, the raw POST response, the body of the result page
and the label-based patient-id extraction applied to it.  A run returns the
outcome together with the trace of external actions it performed. -/

/-- External actions performed by a run of create_update_patient. -/
inductive Action where
  | fetchKey (patientId : String)
  | httpGet (url : String)
  | httpPost (url : String) (body : String)
deriving DecidableEq

/-- Environment of one run: responses of the outside world. -/
structure PatientFlowEnv where
  fetchPatientKey : String → Option String
  pageSoup : Soup
  postResponse : String
  resultPage : String
  extractPatientId : String → String

/-- Outcome of create_update_patient: the structured soft message dict, the
result dict with patient id and page, or a propagated Python exception. -/
inductive PatientOutcome where
  | message (text : String)
  | result (patientId : String) (patientPage : String)
  | raised (e : PyError)
deriving DecidableEq

/-- Steps of create_update_patient after the patient key is known: fetch
the edit page, extract the tokens, build and POST the payload, parse the
postback response (an exception propagates), fetch the redirect target and
extract the assigned patient id from it. -/
def createUpdatePatientAfterKey (patient : BasePatientRec) (env : PatientFlowEnv)
    (now : DateArray) (patientKey : String) (acts : List Action) :
    PatientOutcome × List Action :=
  let url := brightreeUrl ++ "/F1/02873/Nation/Patient/frmPatientPersonal.aspx?PatientKey=" ++
    patientKey ++ "&Edit=1"
  let acts := acts ++ [Action.httpGet url]
  let soup := env.pageSoup
  let body := createUpdatePatientBody soup patient now
  let acts := acts ++ [Action.httpPost url body]
  match patientPostbackParse env.postResponse with
  | .error e => (.raised e, acts)
  | .ok redirectPage =>
    let redirectUrl := brightreeUrl ++ redirectPage
    let acts := acts ++ [Action.httpGet redirectUrl]
    (.result (env.extractPatientId env.resultPage) redirectUrl, acts)

/-- create_update_patient: a patient id equal to the new-record sentinel 0
skips the key lookup and proceeds with key 0; otherwise _fetch_patient_key
resolves the id, and a missing key returns the structured soft message
without any further request. -/
def createUpdatePatientRun (patient : BasePatientRec) (env : PatientFlowEnv)
    (now : DateArray) : PatientOutcome × List Action :=
  if patient.patient_id = 0 then
    createUpdatePatientAfterKey patient env now "0" []
  else
    match env.fetchPatientKey (toString patient.patient_id) with
    | none =>
      (.message ("Unable to retrieve patient with ID: " ++ toString patient.patient_id),
        [Action.fetchKey (toString patient.patient_id)])
    | some key =>
      createUpdatePatientAfterKey patient env now key
        [Action.fetchKey (toString patient.patient_id)]

/-! ## Substring helper lemmas -/

/-- The empty list is a Boolean prefix of every list. -/
theorem nil_isPrefixOf_any (l : List Char) : ([] : List Char).isPrefixOf l = true := by
  cases l <;> rfl

/-- A list is a Boolean prefix of itself followed by anything. -/
theorem isPrefixOf_append_self (n post : List Char) : n.isPrefixOf (n ++ post) = true := by
  induction n with
  | nil => exact nil_isPrefixOf_any _
  | cons c n ih =>
    simp only [List.cons_append, List.isPrefixOf, BEq.refl, Bool.true_and]
    exact ih

/-- A Boolean prefix of the haystack is found by the containment scan. -/
theorem listContains_of_isPrefixOf (n hay : List Char) (h : n.isPrefixOf hay = true) :
    listContains n hay = true := by
  cases hay with
  | nil => simp only [listContains]; exact h
  | cons c rest => simp only [listContains]; rw [h, Bool.true_or]

/-- The containment scan finds a list occurring anywhere in the haystack. -/
theorem listContains_mid (n pre post : List Char) :
    listContains n (pre ++ n ++ post) = true := by
  induction pre with
  | nil =>
    simp only [List.nil_append]
    exact listContains_of_isPrefixOf _ _ (isPrefixOf_append_self n post)
  | cons c pre ih =>
    simp only [List.cons_append, listContains]
    have ih2 : listContains n ((pre.append n).append post) = true := ih
    rw [ih2, Bool.or_true]

/-- The Python substring test succeeds on a string occurring in the middle
of a concatenation. -/
theorem pyIn_mid (pre mid post : String) : pyIn mid (pre ++ mid ++ post) = true := by
  show listContains mid.data (pre ++ mid ++ post).data = true
  rw [String.data_append, String.data_append]
  exact listContains_mid mid.data pre.data post.data

/-- Decidable equality for Except results, so that concrete parse results
can be settled by evaluation. -/
instance {e a : Type} [DecidableEq e] [DecidableEq a] : DecidableEq (Except e a)
  | .error x, .error y =>
    if h : x = y then .isTrue (h ▸ rfl) else .isFalse (fun he => h (by cases he; rfl))
  | .error _, .ok _ => .isFalse (fun he => Except.noConfusion he)
  | .ok _, .error _ => .isFalse (fun he => Except.noConfusion he)
  | .ok x, .ok y =>
    if h : x = y then .isTrue (h ▸ rfl) else .isFalse (fun he => h (by cases he; rfl))

/-! ## Claims -/

/-- C1, counterexample: a response with status 500 whose body contains the
document-type declaration and the access-denied marker is routed by
_handle_response to a generic IntegrationAPIError, not to an
IntegrationAuthError, so the disguised-login detection does not apply
regardless of status code. -/
theorem c1_counterexample :
    pyIn "<!DOCTYPE html>"
      "<!DOCTYPE html><html><body>Access is denied</body></html>" = true ∧
    pyIn "Access is denied"
      "<!DOCTYPE html><html><body>Access is denied</body></html>" = true ∧
    handleResponse
      { status := 500, reason := "Internal Server Error", headersRepr := "<CIMultiDictProxy()>",
        location := none,
        body := "<!DOCTYPE html><html><body>Access is denied</body></html>" } =
      .apiErr "brightree" "Brightree: 500 - <CIMultiDictProxy()>" (some 500) ∧
    (handleResponse
      { status := 500, reason := "Internal Server Error", headersRepr := "<CIMultiDictProxy()>",
        location := none,
        body := "<!DOCTYPE html><html><body>Access is denied</body></html>" }).isAuthError
      = false := by
  decide

/-- C1, amended: for every response whose body contains a document-type
declaration together with an access-denied or login-page marker and whose
status code is below 500, _handle_response raises an IntegrationAuthError
(for an ok status via the disguised-login check, for a 4xx status via the
client-error branch); a status of 500 or above instead raises a generic
IntegrationAPIError even with those markers present. -/
theorem c1_amended (r : HttpResponse)
    (hdoc : pyIn "<!DOCTYPE html>" r.body = true)
    (hmark : pyIn "Access is denied" r.body = true ∨ pyIn "Brightree Login" r.body = true)
    (hlt : r.status < 500) :
    (handleResponse r).isAuthError = true := by
  unfold handleResponse
  by_cases hok : r.status = 200 ∨ responseOk r
  · rw [if_pos hok, if_pos (by simp [hdoc]), if_pos (by simp [hmark])]
    rfl
  · rw [if_neg hok]
    have h400 : 400 ≤ r.status := by
      by_contra hc
      exact hok (Or.inr (by simp [responseOk]; omega))
    rw [if_pos ⟨h400, hlt⟩]
    rfl

/-- C1, witness for the amended theorem at a concrete 302 response carrying
a disguised login page. -/
theorem c1_witness :
    (handleResponse
      { status := 302, reason := "Found", headersRepr := "", location := some "/login",
        body := "<!DOCTYPE html><head><title>Brightree Login</title></head>" }).isAuthError
      = true :=
  c1_amended _ (by decide) (Or.inr (by decide)) (by decide)

/-- C2: every response with status in 401-499 routed through
_handle_response raises an IntegrationAuthError built from the status code
and reason phrase (and no success or IntegrationAPIError results); the
error message contains the decimal status code. -/
theorem c2_client_error_is_auth_error (r : HttpResponse)
    (h1 : 401 ≤ r.status) (h2 : r.status ≤ 499) :
    handleResponse r =
      .authErr ("Brightree: " ++ toString r.status ++ " - " ++ r.reason) none ∧
    pyIn (toString r.status)
      ("Brightree: " ++ toString r.status ++ " - " ++ r.reason) = true := by
  constructor
  · unfold handleResponse
    have hok : ¬(r.status = 200 ∨ responseOk r) := by
      simp [responseOk]
      omega
    rw [if_neg hok, if_pos ⟨by omega, by omega⟩]
  · have hshape : "Brightree: " ++ toString r.status ++ " - " ++ r.reason =
        "Brightree: " ++ toString r.status ++ (" - " ++ r.reason) := by
      rw [String.append_assoc]
    rw [hshape]
    exact pyIn_mid "Brightree: " (toString r.status) (" - " ++ r.reason)

/-- C2, witness at a concrete 418 response. -/
theorem c2_witness :
    handleResponse
      { status := 418, reason := "I am a teapot", headersRepr := "", location := none,
        body := "" } =
      .authErr "Brightree: 418 - I am a teapot" none ∧
    pyIn "418" "Brightree: 418 - I am a teapot" = true := by
  have h := c2_client_error_is_auth_error
    { status := 418, reason := "I am a teapot", headersRepr := "", location := none, body := "" }
    (by decide) (by decide)
  exact h

/-- C3, counterexample: the decoded redirect segment of this patient
postback response is Exception ERROR, which contains the exception marker
in mixed case, yet create_update_patient raises no APIError for it: its
marker test is case-sensitive, so the parse returns the segment as a
redirect page. -/
theorem c3_counterexample :
    patientDecodedSegment "a||b||Exception%20ERROR||d" = some "Exception ERROR" ∧
    pyIn "exception" (pyLower "Exception ERROR") = true ∧
    patientPostbackParse "a||b||Exception%20ERROR||d" = .ok "Exception ERROR" := by
  refine ⟨by decide, by decide, ?_⟩
  rfl

/-- C3, amended: create_or_update_patient tests the decoded segment for the
exception marker case-sensitively (only the lowercase text triggers the
APIError, whose message reports the decoded segment; otherwise the segment
is returned), while create_sales_order tests it case-insensitively (a
segment whose lowercase form contains the marker raises the APIError
reporting the segment; otherwise no APIError is raised). -/
theorem c3_amended :
    (∀ s seg, patientDecodedSegment s = some seg →
      (pyIn "exception" seg = true →
        patientPostbackParse s = .error (.integrationAPIError "brightree"
          ("Failed to create/update new patient: " ++ seg) 500)) ∧
      (pyIn "exception" seg = false → patientPostbackParse s = .ok seg))
    ∧
    (∀ s seg, salesDecodedSegment s = some seg →
      (pyIn "exception" (pyLower seg) = true →
        salesOrderPostbackParse s = .error (.integrationAPIError "brightree"
          ("Failed to create new sales order: " ++ seg) 500)) ∧
      (pyIn "exception" (pyLower seg) = false →
        ∀ n m c, salesOrderPostbackParse s ≠ .error (.integrationAPIError n m c))) := by
  constructor
  · intro s seg h
    unfold patientDecodedSegment at h
    cases hg : (pySplitOn s "||").get? 2 with
    | none => rw [hg] at h; exact absurd h (by simp)
    | some seg0 =>
      rw [hg] at h
      simp only [Option.map_some', Option.some_inj] at h
      constructor
      · intro hmark
        unfold patientPostbackParse
        rw [hg]
        simp only [h]
        rw [if_pos hmark]
      · intro hmark
        unfold patientPostbackParse
        rw [hg]
        simp only [h]
        rw [if_neg (by simp [hmark])]
  · intro s seg h
    unfold salesDecodedSegment at h
    cases hg : (pySplitOn (unquote s) "||").get? 2 with
    | none => rw [hg] at h; exact absurd h (by simp)
    | some seg0 =>
      rw [hg] at h
      simp only [Option.map_some', Option.some_inj] at h
      constructor
      · intro hmark
        unfold salesOrderPostbackParse
        rw [hg]
        simp only [h]
        rw [if_pos hmark]
      · intro hmark
        unfold salesOrderPostbackParse
        rw [hg]
        simp only [h]
        rw [if_neg (by simp [hmark])]
        intro n m c
        cases hk : (pySplitOn (brightreeUrl ++ seg) "SalesOrderKey=").get? 1 with
        | none => simp
        | some keyPart =>
          cases hs : pySplitOn keyPart "&" with
          | nil => simp [hs]
          | cons k rest => simp [hs]

/-- C3, witness for the amended theorem, exercising all four branches at
concrete postback responses. -/
theorem c3_witness :
    patientPostbackParse "a||b||exception%3A%20boom||d" = .error (.integrationAPIError
      "brightree" "Failed to create/update new patient: exception: boom" 500) ∧
    patientPostbackParse "a||b||ok%2Fpage||d" = .ok "ok/page" ∧
    salesOrderPostbackParse "x||y||SomeException||z" = .error (.integrationAPIError
      "brightree" "Failed to create new sales order: SomeException" 500) ∧
    salesOrderPostbackParse "x||y||/p?SalesOrderKey=9||z" ≠
      .error (.integrationAPIError "brightree" "anything" 500) := by
  refine ⟨?_, ?_, ?_, ?_⟩
  · exact ((c3_amended.1 "a||b||exception%3A%20boom||d" "exception: boom" (by decide)).1
      (by decide))
  · exact ((c3_amended.1 "a||b||ok%2Fpage||d" "ok/page" (by decide)).2 (by decide))
  · exact ((c3_amended.2 "x||y||SomeException||z" "SomeException" (by decide)).1 (by decide))
  · exact ((c3_amended.2 "x||y||/p?SalesOrderKey=9||z" "/p?SalesOrderKey=9" (by decide)).2
      (by decide) "brightree" "anything" 500)

/-- C7, counterexample: this postback response's 3rd double-pipe segment,
after stripping pipes and percent-decoding, is exactly the path
/path?SalesOrderKey=999&x=1, yet create_sales_order does not return order
key 999: because the code percent-decodes the whole response before
splitting, the escaped pipes earlier in the response shift the segmentation
and the parse fails with an IndexError. -/
theorem c7_counterexample :
    (((pySplitOn "a%7C%7Cb||c||/path%3FSalesOrderKey%3D999%26x%3D1||d" "||").get? 2).map
      (fun seg => unquote (pyReplace seg "|" ""))) = some "/path?SalesOrderKey=999&x=1" ∧
    salesOrderPostbackParse "a%7C%7Cb||c||/path%3FSalesOrderKey%3D999%26x%3D1||d" =
      .error .indexError := by
  exact ⟨by decide, by decide⟩

/-- C7, amended: for every postback response whose 3rd double-pipe segment,
taken after percent-decoding the whole response and stripping remaining
pipes (the order create_sales_order applies), equals
/path?SalesOrderKey=999&x=1, the parse returns order key 999 and the
absolute redirect URL formed from the base origin. -/
theorem c7_amended (s : String)
    (h : salesDecodedSegment s = some "/path?SalesOrderKey=999&x=1") :
    salesOrderPostbackParse s =
      .ok ("999", "https://brightree.net/path?SalesOrderKey=999&x=1") := by
  unfold salesDecodedSegment at h
  cases hg : (pySplitOn (unquote s) "||").get? 2 with
  | none => rw [hg] at h; exact absurd h (by simp)
  | some seg0 =>
    rw [hg] at h
    simp only [Option.map_some', Option.some_inj] at h
    unfold salesOrderPostbackParse
    rw [hg]
    simp only [h]
    decide

/-- C7, witness for the amended theorem at a concrete postback response. -/
theorem c7_witness :
    salesOrderPostbackParse "x||y||/path?SalesOrderKey=999&x=1||z" =
      .ok ("999", "https://brightree.net/path?SalesOrderKey=999&x=1") :=
  c7_amended "x||y||/path?SalesOrderKey=999&x=1||z" (by decide)

/-- C8, counterexample: the empty phone input has zero digits, which is
neither ten nor eleven, yet format_phone raises no validation error: a
falsy input returns the placeholder mask. -/
theorem c8_counterexample :
    (("" : String).data.filter Char.isDigit).length = 0 ∧
    formatPhone (some "") = .ok "(___) ___-____" := by
  exact ⟨by decide, by decide⟩

/-- C8, amended: an absent input, the empty string or the placeholder mask
itself yields the placeholder mask without error; for any other input,
exactly ten digits yield (XXX) XXX-XXXX built from those digits, eleven
digits starting with 1 yield the same format after dropping the leading 1,
and every other digit count raises the validation error. -/
theorem c8_amended :
    formatPhone none = .ok phoneNumberFormat ∧
    formatPhone (some "") = .ok phoneNumberFormat ∧
    formatPhone (some phoneNumberFormat) = .ok phoneNumberFormat ∧
    (∀ s, s ≠ "" → s ≠ phoneNumberFormat →
      (s.data.filter Char.isDigit).length = 10 →
      formatPhone (some s) = .ok ("(" ++ String.mk ((s.data.filter Char.isDigit).take 3) ++
        ") " ++ String.mk (((s.data.filter Char.isDigit).drop 3).take 3) ++ "-" ++
        String.mk ((s.data.filter Char.isDigit).drop 6))) ∧
    (∀ s, s ≠ "" → s ≠ phoneNumberFormat →
      (s.data.filter Char.isDigit).length = 11 →
      (s.data.filter Char.isDigit).take 1 = ['1'] →
      formatPhone (some s) = .ok ("(" ++ String.mk (((s.data.filter Char.isDigit).drop 1).take 3) ++
        ") " ++ String.mk (((s.data.filter Char.isDigit).drop 4).take 3) ++ "-" ++
        String.mk ((s.data.filter Char.isDigit).drop 7))) ∧
    (∀ s, s ≠ "" → s ≠ phoneNumberFormat →
      (s.data.filter Char.isDigit).length ≠ 10 →
      ¬((s.data.filter Char.isDigit).length = 11 ∧ (s.data.filter Char.isDigit).take 1 = ['1']) →
      formatPhone (some s) = .error "Phone number must be a valid US number (10 digits)") := by
  refine ⟨by decide, by decide, by decide, ?_, ?_, ?_⟩
  · intro s h1 h2 h10
    unfold formatPhone
    rw [if_neg (by simp [h1, h2])]
    simp only [Option.getD_some]
    rw [if_pos h10]
  · intro s h1 h2 h11 hlead
    unfold formatPhone
    rw [if_neg (by simp [h1, h2])]
    simp only [Option.getD_some]
    rw [if_neg (by omega), if_pos ⟨h11, hlead⟩]
  · intro s h1 h2 h10 h11
    unfold formatPhone
    rw [if_neg (by simp [h1, h2])]
    simp only [Option.getD_some]
    rw [if_neg h10, if_neg h11]

/-- C8, witness for the amended theorem at concrete phone inputs covering
the ten-digit, eleven-digit and error branches. -/
theorem c8_witness :
    formatPhone (some "1234567890") = .ok "(123) 456-7890" ∧
    formatPhone (some "+1 (123) 456-7890") = .ok "(123) 456-7890" ∧
    formatPhone (some "123") = .error "Phone number must be a valid US number (10 digits)" := by
  refine ⟨?_, ?_, ?_⟩
  · exact c8_amended.2.2.2.1 "1234567890" (by decide) (by decide) (by decide)
  · exact c8_amended.2.2.2.2.1 "+1 (123) 456-7890" (by decide) (by decide) (by decide) (by decide)
  · exact c8_amended.2.2.2.2.2 "123" (by decide) (by decide) (by decide) (by decide)

/-- A response the walk follows: status 302 with a present, non-empty
Location header. -/
def followable302 (r : HttpResponse) : Prop :=
  r.status = 302 ∧ r.location ≠ none ∧ r.location ≠ some ""

instance (r : HttpResponse) : Decidable (followable302 r) := by
  unfold followable302
  infer_instance

/-- Walk lemma: starting at any count, a block of followable 302 responses
that exactly exhausts the cap ends in the too-many-redirects
IntegrationAPIError after one request per remaining hop. -/
theorem manualRedirectAux_cap (maxR : Nat) :
    ∀ (pre : List HttpResponse) (cnt : Nat) (method url : String)
      (rest : List HttpResponse),
      cnt + pre.length = maxR →
      (∀ r ∈ pre, followable302 r) →
      manualRedirectAux maxR cnt method url (pre ++ rest) =
        (.walkApiError "brightree"
          ("Too many redirects (max: " ++ toString maxR ++ ")"), pre.length) := by
  intro pre
  induction pre with
  | nil =>
    intro cnt method url rest hcnt _
    simp only [List.length_nil] at hcnt
    simp only [List.nil_append]
    cases rest with
    | nil => rw [manualRedirectAux]; rw [if_neg (by omega)]; simp
    | cons r rest2 => rw [manualRedirectAux]; rw [if_neg (by omega)]; simp
  | cons r pre ih =>
    intro cnt method url rest hcnt hall
    obtain ⟨h302, hlocn, hloce⟩ := hall r (List.mem_cons_self r pre)
    have hlt : cnt < maxR := by simp only [List.length_cons] at hcnt; omega
    have hred : isRedirectStatus r.status = true := by
      simp [isRedirectStatus, h302]
    have hloc : ¬(r.location = none ∨ r.location = some "") := by
      intro hc
      rcases hc with hc | hc
      · exact hlocn hc
      · exact hloce hc
    rw [List.cons_append, manualRedirectAux, if_pos hlt, if_pos hred, if_neg hloc]
    rw [ih (cnt + 1) _ _ rest (by simp only [List.length_cons] at hcnt; omega)
      (fun x hx => hall x (List.mem_cons_of_mem r hx))]
    simp [countRequest]

/-- Walk lemma: a block of followable 302 responses within the cap followed
by a non-redirect response returns that response through _handle_response,
after one request per hop plus the final request. -/
theorem manualRedirectAux_reaches (maxR : Nat) :
    ∀ (pre : List HttpResponse) (cnt : Nat) (method url : String)
      (final : HttpResponse) (rest : List HttpResponse),
      cnt + pre.length < maxR →
      (∀ r ∈ pre, followable302 r) →
      isRedirectStatus final.status = false →
      manualRedirectAux maxR cnt method url (pre ++ final :: rest) =
        (.handled (handleResponse final), pre.length + 1) := by
  intro pre
  induction pre with
  | nil =>
    intro cnt method url final rest hcnt _ hfin
    rw [List.nil_append, manualRedirectAux, if_pos (by omega),
      if_neg (by rw [hfin]; exact Bool.false_ne_true)]
    simp
  | cons r pre ih =>
    intro cnt method url final rest hcnt hall hfin
    obtain ⟨h302, hlocn, hloce⟩ := hall r (List.mem_cons_self r pre)
    have hlt : cnt < maxR := by simp only [List.length_cons] at hcnt; omega
    have hred : isRedirectStatus r.status = true := by
      simp [isRedirectStatus, h302]
    have hloc : ¬(r.location = none ∨ r.location = some "") := by
      intro hc
      rcases hc with hc | hc
      · exact hlocn hc
      · exact hloce hc
    rw [List.cons_append, manualRedirectAux, if_pos hlt, if_pos hred, if_neg hloc]
    rw [ih (cnt + 1) _ _ final rest (by simp only [List.length_cons] at hcnt; omega)
      (fun x hx => hall x (List.mem_cons_of_mem r hx)) hfin]
    simp [countRequest]

/-- C5: with the default hop cap of 5, a scripted sequence beginning with
six (or more) followable 302 redirects makes _handle_manual_redirect raise
the IntegrationAPIError naming the cap value 5 after issuing exactly 5
requests (in particular at most 5), and the error message contains the text
5; a walk whose 302 block stays below the cap and then meets a non-redirect
response returns that response through _handle_response, issuing one
request per hop plus the final one. -/
theorem c5_redirect_cap :
    (∀ (r0 r1 r2 r3 r4 r5 : HttpResponse) (rest : List HttpResponse) (method url : String),
      (∀ r ∈ [r0, r1, r2, r3, r4, r5], followable302 r) →
      handleManualRedirect 5 method url (r0 :: r1 :: r2 :: r3 :: r4 :: r5 :: rest) =
        (.walkApiError "brightree" "Too many redirects (max: 5)", 5) ∧
      pyIn "5" "Too many redirects (max: 5)" = true)
    ∧
    (∀ (pre : List HttpResponse) (final : HttpResponse) (rest : List HttpResponse)
        (method url : String),
      pre.length < 5 →
      (∀ r ∈ pre, followable302 r) →
      isRedirectStatus final.status = false →
      handleManualRedirect 5 method url (pre ++ final :: rest) =
        (.handled (handleResponse final), pre.length + 1)) := by
  constructor
  · intro r0 r1 r2 r3 r4 r5 rest method url hall
    constructor
    · have h := manualRedirectAux_cap 5 [r0, r1, r2, r3, r4] 0 method url (r5 :: rest)
        (by simp) (by intro x hx; apply hall; simp at hx; rcases hx with h | h | h | h | h <;>
          simp [h])
      simpa using h
    · decide
  · intro pre final rest method url hlen hall hfin
    exact manualRedirectAux_reaches 5 pre 0 method url final rest (by omega) hall hfin

/-- C5, witness: a concrete six-302 script fails naming the cap after 5
requests, and a concrete 302-then-200 script returns the interpreted 200
body after 2 requests. -/
theorem c5_witness :
    handleManualRedirect 5 "GET" "https://brightree.net/a"
      [ { status := 302, reason := "Found", headersRepr := "", location := some "/1", body := "" },
        { status := 302, reason := "Found", headersRepr := "", location := some "/2", body := "" },
        { status := 302, reason := "Found", headersRepr := "", location := some "/3", body := "" },
        { status := 302, reason := "Found", headersRepr := "", location := some "/4", body := "" },
        { status := 302, reason := "Found", headersRepr := "", location := some "/5", body := "" },
        { status := 302, reason := "Found", headersRepr := "", location := some "/6", body := "" } ] =
      (.walkApiError "brightree" "Too many redirects (max: 5)", 5) ∧
    handleManualRedirect 5 "POST" "https://brightree.net/b"
      [ { status := 302, reason := "Found", headersRepr := "", location := some "/x", body := "" },
        { status := 200, reason := "OK", headersRepr := "", location := none, body := "OK" } ] =
      (.handled (.success "OK"), 2) := by
  constructor
  · exact ((c5_redirect_cap.1 _ _ _ _ _ _ [] "GET" "https://brightree.net/a"
      (by intro r hr; fin_cases hr <;> exact ⟨rfl, by decide, by decide⟩)).1)
  · exact (c5_redirect_cap.2
      [ { status := 302, reason := "Found", headersRepr := "", location := some "/x", body := "" } ]
      { status := 200, reason := "OK", headersRepr := "", location := none, body := "OK" }
      [] "POST" "https://brightree.net/b" (by decide)
      (by intro r hr; fin_cases hr; exact ⟨rfl, by decide, by decide⟩) (by decide))

/-- C6: a run of create_update_patient with the new-record sentinel
patient id 0 never performs the internal-key resolution, whatever the
environment responds; a run with a nonzero patient id for which the key
resolution yields no match returns the structured soft unable-to-retrieve
message — not a raised error — with the key lookup as its only action, in
particular without issuing any POST. -/
theorem c6_patient_key_flow :
    (∀ (p : BasePatientRec) (env : PatientFlowEnv) (now : DateArray) (pid : String),
      p.patient_id = 0 →
      Action.fetchKey pid ∉ (createUpdatePatientRun p env now).2)
    ∧
    (∀ (p : BasePatientRec) (env : PatientFlowEnv) (now : DateArray),
      p.patient_id ≠ 0 →
      env.fetchPatientKey (toString p.patient_id) = none →
      createUpdatePatientRun p env now =
        (.message ("Unable to retrieve patient with ID: " ++ toString p.patient_id),
          [Action.fetchKey (toString p.patient_id)]) ∧
      (∀ u b, Action.httpPost u b ∉ (createUpdatePatientRun p env now).2)) := by
  constructor
  · intro p env now pid h
    unfold createUpdatePatientRun
    rw [if_pos h]
    unfold createUpdatePatientAfterKey
    cases hp : patientPostbackParse env.postResponse with
    | error e => simp
    | ok redirectPage => simp
  · intro p env now h hkey
    have hrun : createUpdatePatientRun p env now =
        (.message ("Unable to retrieve patient with ID: " ++ toString p.patient_id),
          [Action.fetchKey (toString p.patient_id)]) := by
      unfold createUpdatePatientRun
      rw [if_neg h, hkey]
    refine ⟨hrun, ?_⟩
    intro u b
    rw [hrun]
    simp

/-- C6, witness: with an environment whose key lookup always fails, a run
for patient id 0 performs no key lookup and a run for patient id 42
returns the soft message with only the lookup action. -/
theorem c6_witness :
    Action.fetchKey "42" ∉
      (createUpdatePatientRun
        { patient_id := 0, name_first := "", name_last := "", name_middle := "",
          name_suffix := "", name_preferred := "", email := "", dob := "", ssn := "",
          phone_home := "", phone_mobile := "", phone_fax := "" }
        { fetchPatientKey := fun _ => none, pageSoup := { inputs := [] },
          postResponse := "", resultPage := "", extractPatientId := fun _ => "" }
        { year := 2024, month := 5, day := 7 }).2 ∧
    createUpdatePatientRun
        { patient_id := 42, name_first := "", name_last := "", name_middle := "",
          name_suffix := "", name_preferred := "", email := "", dob := "", ssn := "",
          phone_home := "", phone_mobile := "", phone_fax := "" }
        { fetchPatientKey := fun _ => none, pageSoup := { inputs := [] },
          postResponse := "", resultPage := "", extractPatientId := fun _ => "" }
        { year := 2024, month := 5, day := 7 } =
      (.message "Unable to retrieve patient with ID: 42", [Action.fetchKey "42"]) := by
  constructor
  · exact c6_patient_key_flow.1 _ _ _ "42" rfl
  · exact (c6_patient_key_flow.2 _ _ _ (by decide) rfl).1

/-- Lookup step past a non-matching key. -/
theorem lookup_cons_miss (k a : String) (v : FormVal) (t : List (String × FormVal))
    (h : (k == a) = false) : ((a, v) :: t).lookup k = t.lookup k := by
  simp [List.lookup, h]

/-- Lookup step at a matching key. -/
theorem lookup_cons_hit (k a : String) (v : FormVal) (t : List (String × FormVal))
    (h : (k == a) = true) : ((a, v) :: t).lookup k = some v := by
  simp [List.lookup, h]

set_option maxRecDepth 4000 in
/-- C10: a named input absent from the page makes the extractors return
the absence value None (for both the id and the name lookup); the two
payload builders then carry the literal four-character string None as the
value of the corresponding form field — shown for the three postback
tokens and the line-of-business key of each builder — rather than an empty
value or a failure. -/
theorem c10_missing_token_literal_none :
    (∀ (soup : Soup) (inputId : String),
      (∀ e ∈ soup.inputs, e.id ≠ some inputId) →
      extractInputValueById soup inputId = none)
    ∧
    (∀ (soup : Soup) (inputName : String),
      (∀ e ∈ soup.inputs, e.name ≠ some inputName) →
      extractInputValueByName soup inputName = none)
    ∧
    (∀ (p : BasePatientRec) (cda : List Int) (dob : String),
      (createUpdatePatientFormData none none none none p cda dob).lookup "__VIEWSTATE" =
        some (.fstr "None") ∧
      (createUpdatePatientFormData none none none none p cda dob).lookup "__VIEWSTATEGENERATOR" =
        some (.fstr "None") ∧
      (createUpdatePatientFormData none none none none p cda dob).lookup "__EVENTVALIDATION" =
        some (.fstr "None") ∧
      (createUpdatePatientFormData none none none none p cda dob).lookup
        "ctl00$ctl00$c$c$ucBillingAddressUpdate$hfLobKey" = some (.fstr "None"))
    ∧
    (∀ (o : SalesOrderRec) (cda : List Int) (admy sdmy adt sdt : String),
      (createSalesOrderFormData none none none none o cda admy sdmy adt sdt).lookup
        "__VIEWSTATE" = some (.fstr "None") ∧
      (createSalesOrderFormData none none none none o cda admy sdmy adt sdt).lookup
        "__VIEWSTATEGENERATOR" = some (.fstr "None") ∧
      (createSalesOrderFormData none none none none o cda admy sdmy adt sdt).lookup
        "__EVENTVALIDATION" = some (.fstr "None") ∧
      (createSalesOrderFormData none none none none o cda admy sdmy adt sdt).lookup
        "ctl00$ctl00$c$c$DeliveryAddrVerification$hfLobKey" = some (.fstr "None")) := by
  refine ⟨?_, ?_, ?_, ?_⟩
  · intro soup inputId h
    unfold extractInputValueById
    rw [List.find?_eq_none.mpr]
    intro e he
    simp [h e he]
  · intro soup inputName h
    unfold extractInputValueByName
    rw [List.find?_eq_none.mpr]
    intro e he
    simp [h e he]
  · intro p cda dob
    refine ⟨?_, ?_, ?_, ?_⟩
    · simp only [createUpdatePatientFormData, List.cons_append, List.nil_append]
      rw [lookup_cons_miss _ _ _ _ (by decide), lookup_cons_miss _ _ _ _ (by decide), lookup_cons_miss _ _ _ _ (by decide), lookup_cons_miss _ _ _ _ (by decide), lookup_cons_hit _ _ _ _ (by decide)]
      rfl
    · simp only [createUpdatePatientFormData, List.cons_append, List.nil_append]
      rw [lookup_cons_miss _ _ _ _ (by decide), lookup_cons_miss _ _ _ _ (by decide), lookup_cons_miss _ _ _ _ (by decide), lookup_cons_miss _ _ _ _ (by decide), lookup_cons_miss _ _ _ _ (by decide), lookup_cons_hit _ _ _ _ (by decide)]
      rfl
    · simp only [createUpdatePatientFormData, List.cons_append, List.nil_append]
      rw [lookup_cons_miss _ _ _ _ (by decide), lookup_cons_miss _ _ _ _ (by decide), lookup_cons_miss _ _ _ _ (by decide), lookup_cons_miss _ _ _ _ (by decide), lookup_cons_miss _ _ _ _ (by decide), lookup_cons_miss _ _ _ _ (by decide), lookup_cons_hit _ _ _ _ (by decide)]
      rfl
    · simp only [createUpdatePatientFormData, List.cons_append, List.nil_append]
      rw [lookup_cons_miss _ _ _ _ (by decide), lookup_cons_miss _ _ _ _ (by decide), lookup_cons_miss _ _ _ _ (by decide), lookup_cons_miss _ _ _ _ (by decide), lookup_cons_miss _ _ _ _ (by decide), lookup_cons_miss _ _ _ _ (by decide), lookup_cons_miss _ _ _ _ (by decide), lookup_cons_miss _ _ _ _ (by decide), lookup_cons_miss _ _ _ _ (by decide), lookup_cons_miss _ _ _ _ (by decide), lookup_cons_miss _ _ _ _ (by decide), lookup_cons_miss _ _ _ _ (by decide), lookup_cons_miss _ _ _ _ (by decide), lookup_cons_miss _ _ _ _ (by decide), lookup_cons_miss _ _ _ _ (by decide), lookup_cons_miss _ _ _ _ (by decide), lookup_cons_miss _ _ _ _ (by decide), lookup_cons_miss _ _ _ _ (by decide), lookup_cons_miss _ _ _ _ (by decide), lookup_cons_miss _ _ _ _ (by decide), lookup_cons_miss _ _ _ _ (by decide), lookup_cons_miss _ _ _ _ (by decide), lookup_cons_miss _ _ _ _ (by decide), lookup_cons_miss _ _ _ _ (by decide), lookup_cons_miss _ _ _ _ (by decide), lookup_cons_miss _ _ _ _ (by decide), lookup_cons_miss _ _ _ _ (by decide), lookup_cons_miss _ _ _ _ (by decide), lookup_cons_miss _ _ _ _ (by decide), lookup_cons_miss _ _ _ _ (by decide), lookup_cons_miss _ _ _ _ (by decide), lookup_cons_miss _ _ _ _ (by decide), lookup_cons_miss _ _ _ _ (by decide), lookup_cons_miss _ _ _ _ (by decide), lookup_cons_miss _ _ _ _ (by decide), lookup_cons_miss _ _ _ _ (by decide), lookup_cons_miss _ _ _ _ (by decide), lookup_cons_miss _ _ _ _ (by decide), lookup_cons_miss _ _ _ _ (by decide), lookup_cons_miss _ _ _ _ (by decide), lookup_cons_miss _ _ _ _ (by decide), lookup_cons_miss _ _ _ _ (by decide), lookup_cons_miss _ _ _ _ (by decide), lookup_cons_miss _ _ _ _ (by decide), lookup_cons_miss _ _ _ _ (by decide), lookup_cons_miss _ _ _ _ (by decide), lookup_cons_miss _ _ _ _ (by decide), lookup_cons_miss _ _ _ _ (by decide), lookup_cons_miss _ _ _ _ (by decide), lookup_cons_miss _ _ _ _ (by decide), lookup_cons_miss _ _ _ _ (by decide), lookup_cons_miss _ _ _ _ (by decide), lookup_cons_miss _ _ _ _ (by decide), lookup_cons_miss _ _ _ _ (by decide), lookup_cons_miss _ _ _ _ (by decide), lookup_cons_hit _ _ _ _ (by decide)]
      rfl
  · intro o cda admy sdmy adt sdt
    refine ⟨?_, ?_, ?_, ?_⟩
    · simp only [createSalesOrderFormData, List.cons_append, List.nil_append]
      rw [lookup_cons_miss _ _ _ _ (by decide), lookup_cons_miss _ _ _ _ (by decide), lookup_cons_miss _ _ _ _ (by decide), lookup_cons_miss _ _ _ _ (by decide), lookup_cons_miss _ _ _ _ (by decide), lookup_cons_hit _ _ _ _ (by decide)]
      rfl
    · simp only [createSalesOrderFormData, List.cons_append, List.nil_append]
      rw [lookup_cons_miss _ _ _ _ (by decide), lookup_cons_miss _ _ _ _ (by decide), lookup_cons_miss _ _ _ _ (by decide), lookup_cons_miss _ _ _ _ (by decide), lookup_cons_miss _ _ _ _ (by decide), lookup_cons_miss _ _ _ _ (by decide), lookup_cons_hit _ _ _ _ (by decide)]
      rfl
    · simp only [createSalesOrderFormData, List.cons_append, List.nil_append]
      rw [lookup_cons_miss _ _ _ _ (by decide), lookup_cons_miss _ _ _ _ (by decide), lookup_cons_miss _ _ _ _ (by decide), lookup_cons_miss _ _ _ _ (by decide), lookup_cons_miss _ _ _ _ (by decide), lookup_cons_miss _ _ _ _ (by decide), lookup_cons_miss _ _ _ _ (by decide), lookup_cons_hit _ _ _ _ (by decide)]
      rfl
    · simp only [createSalesOrderFormData, List.cons_append, List.nil_append]
      rw [lookup_cons_miss _ _ _ _ (by decide), lookup_cons_miss _ _ _ _ (by decide), lookup_cons_miss _ _ _ _ (by decide), lookup_cons_miss _ _ _ _ (by decide), lookup_cons_miss _ _ _ _ (by decide), lookup_cons_miss _ _ _ _ (by decide), lookup_cons_miss _ _ _ _ (by decide), lookup_cons_miss _ _ _ _ (by decide), lookup_cons_miss _ _ _ _ (by decide), lookup_cons_miss _ _ _ _ (by decide), lookup_cons_miss _ _ _ _ (by decide), lookup_cons_miss _ _ _ _ (by decide), lookup_cons_miss _ _ _ _ (by decide), lookup_cons_miss _ _ _ _ (by decide), lookup_cons_miss _ _ _ _ (by decide), lookup_cons_miss _ _ _ _ (by decide), lookup_cons_miss _ _ _ _ (by decide), lookup_cons_miss _ _ _ _ (by decide), lookup_cons_miss _ _ _ _ (by decide), lookup_cons_miss _ _ _ _ (by decide), lookup_cons_miss _ _ _ _ (by decide), lookup_cons_miss _ _ _ _ (by decide), lookup_cons_miss _ _ _ _ (by decide), lookup_cons_miss _ _ _ _ (by decide), lookup_cons_miss _ _ _ _ (by decide), lookup_cons_miss _ _ _ _ (by decide), lookup_cons_miss _ _ _ _ (by decide), lookup_cons_miss _ _ _ _ (by decide), lookup_cons_miss _ _ _ _ (by decide), lookup_cons_miss _ _ _ _ (by decide), lookup_cons_miss _ _ _ _ (by decide), lookup_cons_miss _ _ _ _ (by decide), lookup_cons_miss _ _ _ _ (by decide), lookup_cons_miss _ _ _ _ (by decide), lookup_cons_miss _ _ _ _ (by decide), lookup_cons_miss _ _ _ _ (by decide), lookup_cons_miss _ _ _ _ (by decide), lookup_cons_miss _ _ _ _ (by decide), lookup_cons_miss _ _ _ _ (by decide), lookup_cons_miss _ _ _ _ (by decide), lookup_cons_miss _ _ _ _ (by decide), lookup_cons_miss _ _ _ _ (by decide), lookup_cons_miss _ _ _ _ (by decide), lookup_cons_miss _ _ _ _ (by decide), lookup_cons_miss _ _ _ _ (by decide), lookup_cons_miss _ _ _ _ (by decide), lookup_cons_miss _ _ _ _ (by decide), lookup_cons_miss _ _ _ _ (by decide), lookup_cons_miss _ _ _ _ (by decide), lookup_cons_hit _ _ _ _ (by decide)]
      rfl

/-- C10, witness: on a concrete soup without the named inputs and a
concrete record, the extractor returns none and the built patient map
carries the literal None string for the view-state field. -/
theorem c10_witness :
    extractInputValueById { inputs := [{ id := some "other", name := none, value := some "x" }] }
      "__VIEWSTATE" = none ∧
    (createUpdatePatientFormData none none none none
      { patient_id := 0, name_first := "", name_last := "", name_middle := "",
        name_suffix := "", name_preferred := "", email := "", dob := "", ssn := "",
        phone_home := "", phone_mobile := "", phone_fax := "" }
      [2024, 5, 7] "").lookup "__VIEWSTATE" = some (.fstr "None") := by
  constructor
  · exact c10_missing_token_literal_none.1 _ "__VIEWSTATE" (by decide)
  · exact (c10_missing_token_literal_none.2.2.1 _ [2024, 5, 7] "").1

/-- Length of the accumulator-based interleaving loop of String.intercalate
with the one-character ampersand separator. -/
theorem intercalate_go_length_amp :
    ∀ (l : List String) (acc : String),
      (String.intercalate.go acc "&" l).length =
        acc.length + ((l.map String.length).sum + l.length) := by
  intro l
  induction l with
  | nil =>
    intro acc
    simp [String.intercalate.go]
  | cons a as ih =>
    intro acc
    rw [String.intercalate.go, ih]
    simp only [String.length_append, List.map_cons, List.sum_cons, List.length_cons]
    have h1 : ("&" : String).length = 1 := rfl
    rw [h1]
    omega

/-- Length of an encoded form body: the lengths of the encoded pairs plus
one ampersand between consecutive pairs. -/
theorem createFormData_length (fd : List (String × FormVal)) :
    (createFormData fd).length =
      (((fd.map encodePair).map String.length).sum + fd.length) - 1 := by
  cases fd with
  | nil => rfl
  | cons x xs =>
    show (String.intercalate "&" (encodePair x :: xs.map encodePair)).length = _
    rw [String.intercalate, intercalate_go_length_amp]
    simp
    omega

/-- The record used by the C4 counterexample (an otherwise empty new
patient). -/
def c4Patient : BasePatientRec :=
  { patient_id := 0, name_first := "", name_last := "", name_middle := "",
    name_suffix := "", name_preferred := "", email := "", dob := "", ssn := "",
    phone_home := "", phone_mobile := "", phone_fax := "" }

/-- The patient form field map built from an empty page snapshot and the
C4 record at a given current date. -/
def c4FormData (now : DateArray) : List (String × FormVal) :=
  createUpdatePatientFormData none none none none c4Patient (getDateArrayNow now)
    (formatDateMdy c4Patient.dob)

set_option maxRecDepth 1000000 in
set_option maxHeartbeats 4000000 in
/-- C4, counterexample: with the page snapshot and the business record held
fixed, two invocations of the patient Form Payload Builder on different
current dates produce different URL-encoded bodies — the builder embeds
datetime.now()'s year, month and day (via _get_date_array) in the calendar
state fields — refuting the claim that the output never depends on the
current time.  The two bodies are distinguished by their lengths, computed
as the sum of the lengths of the encoded fields. -/
theorem c4_counterexample :
    createUpdatePatientBody { inputs := [] } c4Patient { year := 2024, month := 1, day := 1 } ≠
      createUpdatePatientBody { inputs := [] } c4Patient { year := 2024, month := 11, day := 11 } := by
  intro he
  have h : (createFormData (c4FormData { year := 2024, month := 1, day := 1 })).length =
      (createFormData (c4FormData { year := 2024, month := 11, day := 11 })).length :=
    congrArg String.length he
  rw [createFormData_length, createFormData_length] at h
  have hs : (((c4FormData { year := 2024, month := 1, day := 1 }).map encodePair).map
        String.length).sum ≠
      (((c4FormData { year := 2024, month := 11, day := 11 }).map encodePair).map
        String.length).sum := by
    decide
  have hl1 : (c4FormData { year := 2024, month := 1, day := 1 }).length = 187 := by decide
  have hl2 : (c4FormData { year := 2024, month := 11, day := 11 }).length = 187 := by decide
  rw [hl1, hl2] at h
  exact hs (by omega)

/-- C4, amended: the two Form Payload Builders are deterministic functions
of the page snapshot, the business record and the current date: two
invocations that agree on all three produce byte-identical URL-encoded
bodies.  (The counterexample shows agreement on the current date cannot be
dropped: the body embeds datetime.now()'s date triple.) -/
theorem c4_builder_idempotent :
    (∀ (soup1 soup2 : Soup) (p1 p2 : BasePatientRec) (n1 n2 : DateArray),
      soup1 = soup2 → p1 = p2 → n1 = n2 →
      createUpdatePatientBody soup1 p1 n1 = createUpdatePatientBody soup2 p2 n2)
    ∧
    (∀ (soup1 soup2 : Soup) (o1 o2 : SalesOrderRec) (n1 n2 : DateArray),
      soup1 = soup2 → o1 = o2 → n1 = n2 →
      createSalesOrderBody soup1 o1 n1 = createSalesOrderBody soup2 o2 n2) := by
  constructor
  · intro s1 s2 p1 p2 n1 n2 h1 h2 h3
    rw [h1, h2, h3]
  · intro s1 s2 o1 o2 n1 n2 h1 h2 h3
    rw [h1, h2, h3]

/-- C4, witness for the amended theorem at concrete equal inputs. -/
theorem c4_witness :
    createUpdatePatientBody { inputs := [] } c4Patient { year := 2024, month := 5, day := 7 } =
      createUpdatePatientBody { inputs := [] } c4Patient { year := 2024, month := 5, day := 7 } ∧
    createSalesOrderBody { inputs := [] }
        { patient_id := 0, scheduled_time := "", actual_time := "", scheduled_date := "",
          actual_date := "", phone_delivery := "", phone_mobile := "", order_notes := "",
          delivery_notes := "" }
        { year := 2024, month := 5, day := 7 } =
      createSalesOrderBody { inputs := [] }
        { patient_id := 0, scheduled_time := "", actual_time := "", scheduled_date := "",
          actual_date := "", phone_delivery := "", phone_mobile := "", order_notes := "",
          delivery_notes := "" }
        { year := 2024, month := 5, day := 7 } := by
  constructor
  · exact c4_builder_idempotent.1 _ _ _ _ _ _ rfl rfl rfl
  · exact c4_builder_idempotent.2 _ _ _ _ _ _ rfl rfl rfl

/-- The canonical zero-padded ISO rendering YYYY-MM-DD of a calendar
date, as the claim's notion of a valid ISO date string. -/
def isoDateString (y m d : Nat) : String :=
  pad4 y ++ "-" ++ pad2 m ++ "-" ++ pad2 d

/-- Facts about a decimal digit character: it is a digit and its value
round-trips. -/
theorem digit_facts :
    ∀ k, k < 10 → (Char.ofNat (48 + k)).isDigit = true ∧
      (Char.ofNat (48 + k)).toNat - 48 = k := by
  decide

/-- Bound on the month length. -/
theorem daysInMonth_le (y m : Nat) : daysInMonth y m ≤ 31 := by
  unfold daysInMonth
  split
  · split <;> omega
  · split <;> omega

/-- One step of the digit scanner over a digit character. -/
theorem takeDigitsAux_digit (m k : Nat) (hk : k < 10) (cs : List Char) (acc cnt : Nat) :
    takeDigitsAux (m + 1) (Char.ofNat (48 + k) :: cs) acc cnt =
      takeDigitsAux m cs (acc * 10 + k) (cnt + 1) := by
  have h := digit_facts k hk
  simp [takeDigitsAux, h.1, h.2]

/-- The digit scanner over the four-digit padding of a year consumes
exactly the four digits and accumulates the year. -/
theorem takeDigits_pad4 (y : Nat) (hy : y ≤ 9999) (rest : List Char) :
    takeDigits 4 ((pad4 y).data ++ rest) = (y, 4, rest) := by
  have h1 : y / 1000 % 10 < 10 := Nat.mod_lt _ (by norm_num)
  have h2 : y / 100 % 10 < 10 := Nat.mod_lt _ (by norm_num)
  have h3 : y / 10 % 10 < 10 := Nat.mod_lt _ (by norm_num)
  have h4 : y % 10 < 10 := Nat.mod_lt _ (by norm_num)
  show takeDigitsAux 4 _ 0 0 = _
  have hdata : (pad4 y).data ++ rest =
      Char.ofNat (48 + y / 1000 % 10) :: Char.ofNat (48 + y / 100 % 10) ::
        Char.ofNat (48 + y / 10 % 10) :: Char.ofNat (48 + y % 10) :: rest := by
    rfl
  rw [hdata, takeDigitsAux_digit 3 _ h1, takeDigitsAux_digit 2 _ h2,
    takeDigitsAux_digit 1 _ h3, takeDigitsAux_digit 0 _ h4]
  show (_, _, _) = (_, _, _)
  refine congrArg (fun n => (n, 4, rest)) ?_
  omega

/-- The digit scanner over the two-digit padding of a month or day
consumes exactly the two digits and accumulates the value. -/
theorem takeDigits_pad2 (x : Nat) (hx : x ≤ 99) (rest : List Char) :
    takeDigits 2 ((pad2 x).data ++ rest) = (x, 2, rest) := by
  have h1 : x / 10 % 10 < 10 := Nat.mod_lt _ (by norm_num)
  have h2 : x % 10 < 10 := Nat.mod_lt _ (by norm_num)
  show takeDigitsAux 2 _ 0 0 = _
  have hdata : (pad2 x).data ++ rest =
      Char.ofNat (48 + x / 10 % 10) :: Char.ofNat (48 + x % 10) :: rest := by
    rfl
  rw [hdata, takeDigitsAux_digit 1 _ h1, takeDigitsAux_digit 0 _ h2]
  show (_, _, _) = (_, _, _)
  refine congrArg (fun n => (n, 2, rest)) ?_
  omega

/-- Decomposition of the canonical ISO string into its character groups. -/
theorem isoDateString_data (y m d : Nat) :
    (isoDateString y m d).data =
      (pad4 y).data ++ ('-' :: ((pad2 m).data ++ ('-' :: (pad2 d).data))) := by
  have hdash : ("-" : String).data = ['-'] := rfl
  show (pad4 y ++ "-" ++ pad2 m ++ "-" ++ pad2 d).data = _
  rw [String.data_append, String.data_append, String.data_append, String.data_append, hdash]
  simp [List.append_assoc]

/-- strptime accepts the canonical ISO rendering of a calendar-valid date
and returns its components. -/
theorem strptimeYmd_iso (y m d : Nat) (hy1 : 1 ≤ y) (hy2 : y ≤ 9999)
    (hm1 : 1 ≤ m) (hm2 : m ≤ 12) (hd1 : 1 ≤ d) (hd2 : d ≤ daysInMonth y m) :
    strptimeYmd (isoDateString y m d) = some (y, m, d) := by
  unfold strptimeYmd
  rw [isoDateString_data y m d]
  rw [takeDigits_pad4 y hy2]
  have hm99 : m ≤ 99 := by omega
  have hd99 : d ≤ 99 := le_trans hd2 (le_trans (daysInMonth_le y m) (by omega))
  simp only [List.headD, List.tail]
  rw [takeDigits_pad2 m hm99]
  simp only [List.headD, List.tail]
  have hday : takeDigits 2 (pad2 d).data = (d, 2, []) := by
    have h := takeDigits_pad2 d hd99 []
    rwa [List.append_nil] at h
  rw [hday]
  rw [if_neg (by simp), if_neg (by simp), if_neg (by simp), if_neg (by simp),
    if_neg (by simp), if_neg (by simp), if_pos ⟨hy1, hy2, hm1, hm2, hd1, hd2⟩]

/-- The canonical ISO rendering is never the empty string. -/
theorem isoDateString_ne_empty (y m d : Nat) : isoDateString y m d ≠ "" := by
  intro he
  have h := congrArg String.data he
  rw [isoDateString_data y m d] at h
  have hpad : (pad4 y).data =
      Char.ofNat (48 + y / 1000 % 10) :: Char.ofNat (48 + y / 100 % 10) ::
        Char.ofNat (48 + y / 10 % 10) :: Char.ofNat (48 + y % 10) :: [] := rfl
  rw [hpad] at h
  simp at h

/-- C9: for every calendar-valid four-digit ISO date string YYYY-MM-DD,
_format_date_mdy returns month/day/year as plain decimal numbers — no
leading zeros, since they are rendered with the standard decimal numeral
writer — and for empty input it returns the empty string. -/
theorem c9_format_date_mdy :
    (∀ y m d, 1000 ≤ y → y ≤ 9999 → 1 ≤ m → m ≤ 12 → 1 ≤ d → d ≤ daysInMonth y m →
      formatDateMdy (isoDateString y m d) =
        toString m ++ "/" ++ toString d ++ "/" ++ toString y)
    ∧ formatDateMdy "" = "" := by
  constructor
  · intro y m d hy1 hy2 hm1 hm2 hd1 hd2
    have hparse : strptimeYmd (isoDateString y m d) = some (y, m, d) :=
      strptimeYmd_iso y m d (by omega) hy2 hm1 hm2 hd1 hd2
    unfold formatDateMdy
    rw [if_neg (isoDateString_ne_empty y m d)]
    simp only [hparse]
    rw [if_neg (by omega : ¬(y < 1000))]
  · rfl

/-- C9, witness: the sample date renders without leading zeros, and empty
input maps to the empty string. -/
theorem c9_witness :
    formatDateMdy "2024-03-05" = "3/5/2024" ∧ formatDateMdy "" = "" := by
  constructor
  · have h := c9_format_date_mdy.1 2024 3 5 (by norm_num) (by norm_num) (by norm_num)
      (by norm_num) (by norm_num) (by decide)
    have he : isoDateString 2024 3 5 = "2024-03-05" := by decide
    rw [he] at h
    rw [h]
    rfl
  · exact c9_format_date_mdy.2

end Brightree
